import Mathlib

/-!
Shallow embedding of `src/immowelt_scraper.py` (the session-lifecycle and
dedup/dispatch engine of the Immowelt backend) together with theorems that
settle the frozen claims C1..C10.

Modelling conventions:
* Python strings are `List Char`; timestamps are `Nat` seconds (the code's
  `age_minutes > 50` becomes `ageSeconds > 3000`, exactly `50 * 60`).
* The network is an environment: each HTTP attempt of a retry loop is drawn
  from a function `Nat → Attempt` (index = the Python `attempt` counter).
  A `tErr` attempt models the request itself raising; a `resp` attempt
  carries the status code and response body.  For the search call the parsed
  JSON payload is part of the attempt (`perr` = `.json()`/field access
  raised, `fields none` = no `classifieds` key in the 200 body).
* The Supabase store is a capability `dbOk : Nat → Bool` consulted per
  update call (indexed by the number of update attempts so far); a `false`
  entry models `.execute()` raising.  Effects are threaded through an
  explicit state `St` carrying the persisted record, the client's token
  state, and observation traces (refresh invocations, `contact_listing`
  invocations, successful store writes).
* Exceptions that escape a function are `Except Unit` results; `try/except`
  blocks in the source become explicit branching on the store/parse flags.
* Request payload construction (search criteria, contact form fields,
  cookies, proxies, headers) is opaque: no claim depends on payload
  contents, and attempt outcomes are supplied by the environment.  The
  `configuration.criteria`/`paging` and contact-form field values are
  therefore not modelled field-by-field; only their presence tests are.
* Python dict aliasing of `account['configuration']` is not modelled; no
  settled claim's world reaches a path where the aliasing is observable
  (it needs a store write to raise in between two reads of the dict).
-/

set_option maxRecDepth 8000

namespace Immowelt

/-! ### Soft-block classification (`status == 403 or 'captcha' in text.lower() or '403' in text.lower()`) -/

/-- Characters of the marker `"captcha"`. -/
def captchaMarker : List Char := ['c', 'a', 'p', 't', 'c', 'h', 'a']

/-- Characters of the marker `"403"`. -/
def marker403 : List Char := ['4', '0', '3']

/-- `text.lower()`. -/
def lowerChars (s : List Char) : List Char := s.map Char.toLower

/-- Does `hay` start with `needle`? -/
def beginsWith : List Char → List Char → Bool
  | [], _ => true
  | _ :: _, [] => false
  | a :: as, b :: bs => a == b && beginsWith as bs

/-- Python's `needle in hay` on character sequences. -/
def containsSeq (needle : List Char) : List Char → Bool
  | [] => beginsWith needle []
  | c :: rest => beginsWith needle (c :: rest) || containsSeq needle rest

/-- The soft-block test every retry loop applies to a response:
`r.status_code == 403 or 'captcha' in r.text.lower() or '403' in r.text.lower()`. -/
def softBlock (status : Nat) (body : List Char) : Bool :=
  status == 403 || containsSeq captchaMarker (lowerChars body) ||
    containsSeq marker403 (lowerChars body)

/-! ### Tokens (`WANTED_KEYS` fields of the client state) -/

/-- The client's token dictionary restricted to `WANTED_KEYS`; `none` = key
absent.  `accessToken` is `"oauth.access.token"`. -/
structure Tokens where
  did : Option (List Char)
  auth0 : Option (List Char)
  auth0Compat : Option (List Char)
  didCompat : Option (List Char)
  accessToken : Option (List Char)
  accessExpiration : Option (List Char)
deriving DecidableEq, Repr

def emptyTokens : Tokens :=
  { did := none, auth0 := none, auth0Compat := none, didCompat := none,
    accessToken := none, accessExpiration := none }

/-- Field-level choice used by `dict.update`: a key present in the patch
overwrites, an absent key is retained. -/
def pick (n o : Option (List Char)) : Option (List Char) :=
  match n with
  | some v => some v
  | none => o

/-- `self.tokens.update(new_tokens)` (the `if new_tokens:` guard is
semantically transparent: updating with an empty dict is the identity). -/
def mergeTokens (old patch : Tokens) : Tokens :=
  { did := pick patch.did old.did
  , auth0 := pick patch.auth0 old.auth0
  , auth0Compat := pick patch.auth0Compat old.auth0Compat
  , didCompat := pick patch.didCompat old.didCompat
  , accessToken := pick patch.accessToken old.accessToken
  , accessExpiration := pick patch.accessExpiration old.accessExpiration }

/-- `bool(self.tokens.get("oauth.access.token"))`: present and non-empty. -/
def tokenUsable (tk : Tokens) : Bool :=
  match tk.accessToken with
  | some (_ :: _) => true
  | _ => false

/-- A persisted `session_created_at` string as seen through
`datetime.fromisoformat`: it either parses to a time (`good t`) or the call
raises (`bad`).  A missing or empty (falsy) string is `none` at the use
sites. -/
inductive TsStr where
  | good (t : Nat)
  | bad
deriving DecidableEq, Repr

/-- The persisted `session_details` dict: `WANTED_KEYS` token fields plus
`session_created_at`. -/
structure SessionDetails where
  tokens : Tokens
  session_created_at : Option TsStr
deriving DecidableEq, Repr

/-! ### Retry loops

Each loop mirrors the Python `for attempt in range(20)` body.  `attempt` is
the Python loop counter, `fuel` the number of iterations left
(`attempt + fuel = 20` at every call), so `isLast` (= `attempt == 19`) is
`fuel == 0` inside the `fuel + 1` branch. -/

def maxRetries : Nat := 20

/-- One attempt of the refresh call: either the request raised, or a
response with status, body, and the `WANTED_KEYS` cookies it set. -/
inductive RefreshAttempt where
  | tErr
  | resp (status : Nat) (body : List Char) (cookies : Tokens)
deriving DecidableEq, Repr

/-- The retry loop of `ImmoweltClient.refresh_session` (lines 167-226).
Returns the Python return value together with the client token state and
`session_created_at` after the loop. -/
def refreshGo (env : Nat → RefreshAttempt) (now : Nat) :
    Nat → Nat → Tokens → Option TsStr → Bool × Tokens × Option TsStr
  | _, 0, tk, cr => (false, tk, cr)
  | attempt, fuel + 1, tk, cr =>
    let isLast := fuel == 0
    match env attempt with
    | .tErr =>
      if isLast then (false, tk, cr) else refreshGo env now (attempt + 1) fuel tk cr
    | .resp status body cookies =>
      if softBlock status body && !isLast then
        refreshGo env now (attempt + 1) fuel tk cr
      else if status != 200 then
        if isLast then (false, tk, cr) else refreshGo env now (attempt + 1) fuel tk cr
      else
        (true, mergeTokens tk cookies, some (.good now))

/-- An item of the `classifieds` array: `item['id']` (always read, a missing
key raises and is modelled by the `perr` payload) and `item.get('title',
'Unknown')`. -/
structure RawItem where
  id : Nat
  title : Option (List Char)
deriving DecidableEq, Repr

/-- The parsed body of a search response: `perr` = `.json()` or the
extraction raised; `fields cls` = parsed JSON whose `classifieds` key is
`cls` (`none` = key absent, which yields an empty listing list). -/
inductive SearchPayload where
  | perr
  | fields (classifieds : Option (List RawItem))
deriving DecidableEq, Repr

inductive SearchAttempt where
  | tErr
  | resp (status : Nat) (body : List Char) (payload : SearchPayload)
deriving DecidableEq, Repr

/-- A listing as built by `search_listings` (lines 324-329). -/
structure Listing where
  id : Nat
  url : List Char
  title : List Char
  published : Nat
deriving DecidableEq, Repr

def unknownTitle : List Char := ['U', 'n', 'k', 'n', 'o', 'w', 'n']

/-- `f"https://www.immowelt.de/expose/{item['id']}"`. -/
def exposeUrl (id : Nat) : List Char :=
  ['h', 't', 't', 'p', 's', ':', '/', '/', 'w', 'w', 'w', '.', 'i', 'm',
   'm', 'o', 'w', 'e', 'l', 't', '.', 'd', 'e', '/', 'e', 'x', 'p', 'o',
   's', 'e', '/'] ++ Nat.toDigits 10 id

def mkListing (now : Nat) (it : RawItem) : Listing :=
  { id := it.id
  , url := exposeUrl it.id
  , title := match it.title with | some t => t | none => unknownTitle
  , published := now }

/-- Lines 321-330: build the listing list from the `classifieds` array
(absent key leaves the list empty, still a success). -/
def extractListings (now : Nat) (cls : Option (List RawItem)) : List Listing :=
  match cls with
  | none => []
  | some items => items.map (mkListing now)

/-- The retry loop of `ImmoweltClient.search_listings` (lines 280-341). -/
def searchGo (env : Nat → SearchAttempt) (now : Nat) : Nat → Nat → List Listing
  | _, 0 => []
  | attempt, fuel + 1 =>
    let isLast := fuel == 0
    match env attempt with
    | .tErr => if isLast then [] else searchGo env now (attempt + 1) fuel
    | .resp status body payload =>
      if softBlock status body && !isLast then
        searchGo env now (attempt + 1) fuel
      else if status != 200 then
        if isLast then [] else searchGo env now (attempt + 1) fuel
      else
        match payload with
        | .perr => if isLast then [] else searchGo env now (attempt + 1) fuel
        | .fields cls => extractListings now cls

/-- `ImmoweltClient.search_listings` (lines 231-341): the unauthenticated
guard followed by the retry loop. -/
def search_listings (tk : Tokens) (env : Nat → SearchAttempt) (now : Nat) :
    List Listing :=
  if tokenUsable tk then searchGo env now 0 maxRetries else []

inductive ContactAttempt where
  | tErr
  | resp (status : Nat) (body : List Char)
deriving DecidableEq, Repr

/-- The retry loop of `ImmoweltClient.contact_listing` (lines 396-442). -/
def contactGo (env : Nat → ContactAttempt) : Nat → Nat → Bool
  | _, 0 => false
  | attempt, fuel + 1 =>
    let isLast := fuel == 0
    match env attempt with
    | .tErr => if isLast then false else contactGo env (attempt + 1) fuel
    | .resp status body =>
      if softBlock status body && !isLast then
        contactGo env (attempt + 1) fuel
      else if status == 200 || status == 201 then true
      else if isLast then false else contactGo env (attempt + 1) fuel

/-- `ImmoweltClient.contact_listing` (lines 346-442): the unauthenticated
guard followed by the retry loop. -/
def contact_listing (tk : Tokens) (env : Nat → ContactAttempt) : Bool :=
  if tokenUsable tk then contactGo env 0 maxRetries else false

/-! ### Persisted record, world, effect state -/

/-- The `configuration` dict: only the fields the engine reads or writes.
`contact_form` is opaque (only its truthiness is tested), `scrape_enabled`
and `contacted_ads` are absent when the dict lacks the key. -/
structure Config where
  contact_form : Option Unit
  scrape_enabled : Option Bool
  contacted_ads : Option Nat
deriving DecidableEq, Repr

def defaultConfig : Config :=
  { contact_form := none, scrape_enabled := none, contacted_ads := none }

/-- The `listing_data` dict.  Missing `offers`/`contacted_ids` keys behave
exactly like empty lists at every read site (`.get(..., [])`), so they are
identified with `[]`. -/
structure ListingData where
  last_latest : Option Nat
  offers : List Listing
  contacted_ids : List Nat
deriving DecidableEq, Repr

def emptyListingData : ListingData :=
  { last_latest := none, offers := [], contacted_ids := [] }

/-- The persisted account row, as read into the in-memory `account` dict and
as mutated by the store updates.  `none` models a missing/null (falsy)
field. -/
structure Account where
  configuration : Option Config
  session_details : Option SessionDetails
  listing_data : Option ListingData
  message : Option (List Char)
  last_updated_at : Option Nat
deriving DecidableEq, Repr

/-- One `supabase.table('accounts').update({...})` call, by the exact set of
fields the source passes at each call site. -/
inductive DbWrite where
  | wConfig (c : Config)
  | wSession (s : SessionDetails)
  | wListingLastUpd (d : ListingData) (t : Nat)
  | wListing (d : ListingData)
  | wLastUpd (t : Nat)
deriving DecidableEq, Repr

def applyWrite (p : DbWrite) (a : Account) : Account :=
  match p with
  | .wConfig c => { a with configuration := some c }
  | .wSession s => { a with session_details := some s }
  | .wListingLastUpd d t => { a with listing_data := some d, last_updated_at := some t }
  | .wListing d => { a with listing_data := some d }
  | .wLastUpd t => { a with last_updated_at := some t }

/-- The external behaviours one cycle can observe: the wall clock, the HTTP
attempt outcomes of each retried call (refresh calls are indexed by
invocation, contact calls by invocation), and whether each store update
succeeds (`false` = `.execute()` raises). -/
structure World where
  now : Nat
  refreshEnv : Nat → Nat → RefreshAttempt
  searchEnv : Nat → SearchAttempt
  contactEnv : Nat → Nat → ContactAttempt
  dbOk : Nat → Bool

/-- The mutable state threaded through a cycle: the persisted row, the
client's token state, and observation traces. -/
structure St where
  row : Account
  tokens : Tokens
  session_created_at : Option TsStr
  refreshCalls : Nat
  contactCalls : List Nat
  writeCount : Nat
  writesDone : List DbWrite
deriving DecidableEq, Repr

/-- State at the top of `run_scraper_for_account`: a fresh `ImmoweltClient`
(empty tokens, no timestamp) over the unmodified row. -/
def initSt (a : Account) : St :=
  { row := a, tokens := emptyTokens, session_created_at := none,
    refreshCalls := 0, contactCalls := [], writeCount := 0, writesDone := [] }

/-- One store update: consult `dbOk` at the current attempt index; on
success apply the write to the row and record it, on failure (a raise at the
call site) only the attempt counter advances. -/
def dbUpdate (w : World) (p : DbWrite) (s : St) : Bool × St :=
  let k := s.writeCount
  if w.dbOk k then
    (true, { s with
              writeCount := k + 1
              row := applyWrite p s.row
              writesDone := s.writesDone ++ [p] })
  else
    (false, { s with writeCount := k + 1 })

/-- `client.refresh_session()` as invoked inside a cycle: pick the attempt
environment of this invocation and run the retry loop over the client
state. -/
def refresh_session (w : World) (s : St) : Bool × St :=
  let i := s.refreshCalls
  let s1 : St := { s with refreshCalls := i + 1 }
  let r := refreshGo (w.refreshEnv i) w.now 0 maxRetries s1.tokens s1.session_created_at
  (r.1, { s1 with tokens := r.2.1, session_created_at := r.2.2 })

/-- `client.get_session_dict()`: the token fields plus
`session_created_at or datetime.now().isoformat()`. -/
def get_session_dict (w : World) (s : St) : SessionDetails :=
  { tokens := s.tokens
  , session_created_at :=
      match s.session_created_at with
      | some ts => some ts
      | none => some (.good w.now) }

/-- `account.get('configuration', {})`. -/
def getConfig (a : Account) : Config :=
  match a.configuration with
  | some c => c
  | none => defaultConfig

/-- `config['scrape_enabled'] = False`. -/
def disableConfig (c : Config) : Config := { c with scrape_enabled := some false }

/-! ### `ensure_valid_session` (lines 449-527) -/

/-- Lines 507-527, reached when the timestamp is missing/unparseable or when
an exception escaped the aged-session branch: refresh, persist the session
on success, auto-disable the account on failure.  The two store updates here
are outside any `try`, so their failure propagates. -/
def ensureFallback (w : World) (acct : Account) (s : St) : Except Unit Bool × St :=
  let rs := refresh_session w s
  if rs.1 then
    let up := dbUpdate w (.wSession (get_session_dict w rs.2)) rs.2
    if up.1 then (.ok true, up.2) else (.error (), up.2)
  else
    let cfg := disableConfig (getConfig acct)
    let up := dbUpdate w (.wConfig cfg) rs.2
    if up.1 then (.ok false, up.2) else (.error (), up.2)

/-- `ensure_valid_session(client, account, supabase)`.  The `try` block of
lines 470-502 catches both an unparseable timestamp and a raising store
update, falling through to `ensureFallback`. -/
def ensure_valid_session (w : World) (acct : Account) (s0 : St) :
    Except Unit Bool × St :=
  match acct.session_details with
  | none => (.ok false, s0)
  | some sd =>
    let s1 : St := { s0 with
                      tokens := sd.tokens
                      session_created_at := sd.session_created_at }
    match sd.session_created_at with
    | some (.good t) =>
      if w.now - t > 3000 then
        let rs := refresh_session w s1
        if rs.1 then
          let up := dbUpdate w (.wSession (get_session_dict w rs.2)) rs.2
          if up.1 then (.ok true, up.2) else ensureFallback w acct up.2
        else
          let cfg := disableConfig (getConfig acct)
          let up := dbUpdate w (.wConfig cfg) rs.2
          if up.1 then (.ok false, up.2) else ensureFallback w acct up.2
      else
        (.ok true, s1)
    | _ => ensureFallback w acct s1

/-! ### Contact dispatch loop (lines 672-696) -/

/-- The per-cycle dispatch counters and the `newly_contacted_ids`
accumulator. -/
structure DispatchAcc where
  contacted : Nat
  failed : Nat
  skipped : Nat
  newly_contacted_ids : List Nat
deriving DecidableEq, Repr

def emptyDispatchAcc : DispatchAcc :=
  { contacted := 0, failed := 0, skipped := 0, newly_contacted_ids := [] }

/-- The `for offer in new_offers` loop: skip ids already in the history,
otherwise invoke `contact_listing` (recorded in the `contactCalls` trace)
and count the outcome. -/
def dispatchLoop (w : World) (history : List Nat) :
    List Listing → DispatchAcc → St → DispatchAcc × St
  | [], acc, s => (acc, s)
  | offer :: rest, acc, s =>
    if history.contains offer.id then
      dispatchLoop w history rest { acc with skipped := acc.skipped + 1 } s
    else
      let i := s.contactCalls.length
      let s1 : St := { s with contactCalls := s.contactCalls ++ [offer.id] }
      if contact_listing s1.tokens (w.contactEnv i) then
        dispatchLoop w history rest
          { acc with
              contacted := acc.contacted + 1
              newly_contacted_ids := acc.newly_contacted_ids ++ [offer.id] } s1
      else
        dispatchLoop w history rest { acc with failed := acc.failed + 1 } s1

/-! ### `run_scraper_for_account` (lines 534-740)

The single Python function is factored into phase functions along its
comment banners: the auto-contact tail (lines 664-731), the post-session
body (lines 563-740), and the top-level orchestration. -/

/-- Lines 664-731: the dispatch loop over the new offers followed by the
conditional contacted-ids write and the conditional counter write (both
inside `try`, failures swallowed). -/
def runContactTail (w : World) (config : Config) (updated : ListingData)
    (history : List Nat) (new_offers : List Listing) (s2 : St) :
    Except Unit (Bool × Nat) × St :=
  let d := dispatchLoop w history new_offers emptyDispatchAcc s2
  let acc := d.1
  let s3 := d.2
  -- lines 698-715: contacted_ids write (inside try, failure swallowed)
  let s4 :=
    if acc.newly_contacted_ids.isEmpty then s3
    else
      let updated2 := { updated with
        contacted_ids := (acc.newly_contacted_ids ++ history).take 1000 }
      (dbUpdate w (.wListing updated2) s3).2
  -- lines 717-731: contacted_ads counter (inside try, failure swallowed)
  let s5 :=
    if acc.contacted == 0 then s4
    else
      let current := match config.contacted_ads with
        | some n => n
        | none => 0
      let cfg2 := { config with contacted_ads := some (current + acc.contacted) }
      (dbUpdate w (.wConfig cfg2) s4).2
  (.ok (true, new_offers.length), s5)

/-- Lines 563-740: everything after the session guard has reported a usable
session. -/
def runAfterSession (w : World) (acct : Account) (config : Config) (s1 : St) :
    Except Unit (Bool × Nat) × St :=
  let listings := search_listings s1.tokens w.searchEnv w.now
  if listings.isEmpty then
    -- lines 567-573: update only last_updated_at (not inside a try)
    let up := dbUpdate w (.wLastUpd w.now) s1
    if up.1 then (.ok (true, 0), up.2) else (.error (), up.2)
  else
    let existing := match acct.listing_data with
      | some d => d
      | none => emptyListingData
    let previous_offers := existing.offers
    let is_first_run := previous_offers.isEmpty
    let previous_ids := previous_offers.map (fun o => o.id)
    let new_offers := listings.filter (fun l => !(previous_ids.contains l.id))
    if new_offers.isEmpty then
      -- lines 593-599: nothing new, only last_updated_at advances
      let up := dbUpdate w (.wLastUpd w.now) s1
      if up.1 then (.ok (true, 0), up.2) else (.error (), up.2)
    else
      let all_offers := (new_offers ++ previous_offers).take 50
      let updated : ListingData :=
        { last_latest := some w.now
        , offers := all_offers
        , contacted_ids := existing.contacted_ids }
      -- lines 617-628: the snapshot save is inside a try; failure → (False, 0)
      let up := dbUpdate w (.wListingLastUpd updated w.now) s1
      if !up.1 then (.ok (false, 0), up.2)
      else
        let s2 := up.2
        if is_first_run then (.ok (true, new_offers.length), s2)
        else
          match config.contact_form with
          | none => (.ok (true, new_offers.length), s2)
          | some _ =>
            match acct.message with
            | none => (.ok (true, new_offers.length), s2)
            | some msg =>
              if msg.all Char.isWhitespace then
                (.ok (true, new_offers.length), s2)
              else
                runContactTail w config updated existing.contacted_ids new_offers s2

def run_scraper_for_account (w : World) (acct : Account) :
    Except Unit (Bool × Nat) × St :=
  let s0 := initSt acct
  let config := getConfig acct
  match ensure_valid_session w acct s0 with
  | (.error e, s) => (.error e, s)
  | (.ok ok, s1) =>
    if !ok then (.ok (false, 0), s1)
    else runAfterSession w acct config s1

/-! ### Read helpers shared by the claim statements -/

/-- The previous `offers` sequence of the snapshot stored on the row. -/
def offersOf (a : Account) : List Listing :=
  match a.listing_data with
  | some d => d.offers
  | none => []

/-- The contacted-id history stored on the row. -/
def historyOf (a : Account) : List Nat :=
  match a.listing_data with
  | some d => d.contacted_ids
  | none => []

/-- The listing sequence the cycle fetches: `client.search_listings(config)`
evaluated over the client state `ensure_valid_session` leaves behind. -/
def fetchedOf (w : World) (a : Account) : List Listing :=
  search_listings (ensure_valid_session w a (initSt a)).2.tokens w.searchEnv w.now

/-! ### Attempt classifications used by the retry-loop theorems -/

/-- An attempt of the contact call with a status the loop ever accepts. -/
def contactAcceptable : ContactAttempt → Bool
  | .tErr => false
  | .resp s _ => s == 200 || s == 201

/-- An attempt of the search call the loop can accept: a 200 whose body
parses. -/
def searchAcceptable : SearchAttempt → Bool
  | .tErr => false
  | .resp s _ p => s == 200 && (match p with | .perr => false | .fields _ => true)

/-- An attempt of the refresh call the loop can accept: a 200. -/
def refreshAcceptable : RefreshAttempt → Bool
  | .tErr => false
  | .resp s _ _ => s == 200

/-- A response-attempt of the contact call that is classified soft-block. -/
def softContact : ContactAttempt → Bool
  | .tErr => false
  | .resp s b => softBlock s b

/-- A store write that sets `scrape_enabled` to false (the auto-disable). -/
def isDisable : DbWrite → Bool
  | .wConfig c => c.scrape_enabled == some false
  | _ => false

/-- The shapes of store writes `run_scraper_for_account` issues after the
session guard: the `last_updated_at`-only stamps, the snapshot save (offers
truncated to 50), the contacted-ids save (offers truncated to 50, ids
truncated to 1000), and the counter update (which does not change
`scrape_enabled`). -/
def postWrite (config : Config) (q : DbWrite) : Prop :=
  (∃ t, q = .wLastUpd t) ∨
  (∃ d t, q = .wListingLastUpd d t ∧ d.offers.length ≤ 50) ∨
  (∃ d, q = .wListing d ∧ d.offers.length ≤ 50 ∧ d.contacted_ids.length ≤ 1000) ∨
  (∃ c, q = .wConfig c ∧ c.scrape_enabled = config.scrape_enabled)

/-! ### Concrete inputs for witnesses and counterexamples -/

/-- A usable token set. -/
def tkGood : Tokens := { emptyTokens with accessToken := some ['x'] }

/-- A contact environment whose every attempt is a 200 whose body is the
captcha marker itself: every attempt is classified soft-block. -/
def envCaptcha200 : Nat → ContactAttempt := fun _ => .resp 200 captchaMarker

/-- A search environment whose every attempt is a plain 500: hard failure
on all 20 attempts. -/
def envSearch500 : Nat → SearchAttempt := fun _ => .resp 500 [] (.fields none)

/-- A search environment whose first attempt is a clean 200 with an empty
body and no `classifieds` key: a success with zero results. -/
def envSearchZero : Nat → SearchAttempt := fun _ => .resp 200 [] (.fields (some []))

/-- A contact environment of clean 500s. -/
def envContact500 : Nat → ContactAttempt := fun _ => .resp 500 []

/-- A refresh environment of clean 500s. -/
def envRefresh500 : Nat → RefreshAttempt := fun _ => .resp 500 [] emptyTokens

/-- A refresh environment that succeeds immediately. -/
def envRefreshOk : Nat → RefreshAttempt := fun _ => .resp 200 [] emptyTokens

/-- A benign world: clock at 100, refresh always hard-fails, search returns
one listing with id 3 and one with id 1, contact always succeeds, store
always succeeds. -/
def wBase : World :=
  { now := 100
  , refreshEnv := fun _ _ => .resp 500 [] emptyTokens
  , searchEnv := fun _ => .resp 200 [] (.fields (some [⟨3, none⟩, ⟨1, none⟩]))
  , contactEnv := fun _ _ => .resp 200 []
  , dbOk := fun _ => true }

/-- An account with a fresh session, previous offers 1 and 2, contacted
history `[9]`, a contact form and a message: the C5 scenario account. -/
def acctScenario : Account :=
  { configuration :=
      some { contact_form := some (), scrape_enabled := some true, contacted_ads := some 3 }
  , session_details := some { tokens := tkGood, session_created_at := some (.good 0) }
  , listing_data :=
      some { last_latest := none
           , offers := [⟨1, [], [], 0⟩, ⟨2, [], [], 0⟩]
           , contacted_ids := [9] }
  , message := some ['h', 'i']
  , last_updated_at := none }

/-- A world fetching a single listing with id 9. -/
def wNine : World :=
  { wBase with searchEnv := fun _ => .resp 200 [] (.fields (some [⟨9, none⟩])) }

/-- An account whose contacted-id history already holds 1001 entries (all
9), previous offer id 2000, contact form and message present: a dispatch
cycle over it skips its single new offer (id 9) and writes no contacted-id
list, leaving the oversized history in place. -/
def acctOversized : Account :=
  { acctScenario with
      listing_data :=
        some { last_latest := none
             , offers := [⟨2000, [], [], 0⟩]
             , contacted_ids := List.replicate 1001 9 } }

/-- A fresh session carrying no `oauth.access.token`. -/
def acctNoToken : Account :=
  { acctScenario with
      session_details :=
        some { tokens := emptyTokens, session_created_at := some (.good 90) } }

/-- A world whose store always raises. -/
def wDbFail : World := { wBase with dbOk := fun _ => false }

/-- A world whose every search attempt is a hard 500. -/
def wSearchFail : World := { wBase with searchEnv := envSearch500 }

/-- A first-run account: fresh session, no previous offers, a non-empty
contacted history (which must be ignored on the first run). -/
def acctFirstRun : Account :=
  { acctScenario with
      listing_data :=
        some { last_latest := none, offers := [], contacted_ids := [3, 1] } }

/-- A stale-session account (created at 0, observed at `wBase.now + 4000`). -/
def wStale : World := { wBase with now := 4000 }

/-! ### Marker-search lemmas -/

theorem beginsWith_iff (n : List Char) : ∀ h : List Char,
    (beginsWith n h = true ↔ ∃ t, h = n ++ t) := by
  induction n with
  | nil => intro h; simp [beginsWith]
  | cons a as ih =>
    intro h
    cases h with
    | nil => simp [beginsWith]
    | cons b bs =>
      simp only [beginsWith, Bool.and_eq_true, beq_iff_eq, ih,
        List.cons_append, List.cons.injEq]
      constructor
      · rintro ⟨hab, t, ht⟩; exact ⟨t, hab.symm, ht⟩
      · rintro ⟨t, hba, ht⟩; exact ⟨hba.symm, t, ht⟩

theorem containsSeq_iff (n : List Char) : ∀ h : List Char,
    (containsSeq n h = true ↔ ∃ p t, h = p ++ n ++ t) := by
  intro h
  induction h with
  | nil =>
    simp only [containsSeq, beginsWith_iff]
    constructor
    · rintro ⟨t, ht⟩
      exact ⟨[], t, by simpa using ht⟩
    · rintro ⟨p, t, hpt⟩
      have h2 := List.append_eq_nil.mp hpt.symm
      have h3 := List.append_eq_nil.mp h2.1
      exact ⟨[], by simp [h3.2]⟩
  | cons c rest ih =>
    simp only [containsSeq, Bool.or_eq_true, beginsWith_iff, ih]
    constructor
    · rintro (⟨t, ht⟩ | ⟨p, t, hpt⟩)
      · exact ⟨[], t, by simpa using ht⟩
      · exact ⟨c :: p, t, by simp [hpt]⟩
    · rintro ⟨p, t, hpt⟩
      cases p with
      | nil => exact Or.inl ⟨t, by simpa using hpt⟩
      | cons d ds =>
        simp only [List.cons_append, List.cons.injEq] at hpt
        exact Or.inr ⟨ds, t, hpt.2⟩

/-- The classification test, spelled out: a response is soft-blocked iff the
status is 403 or the lowercased body contains one of the two markers. -/
theorem softBlock_iff (status : Nat) (body : List Char) :
    softBlock status body = true ↔
      status = 403 ∨ (∃ p t, lowerChars body = p ++ captchaMarker ++ t) ∨
        (∃ p t, lowerChars body = p ++ marker403 ++ t) := by
  simp [softBlock, Bool.or_eq_true, containsSeq_iff, beq_iff_eq, or_assoc]

/-! ### Retry-loop lemmas -/

theorem contactGo_all_unacceptable (env : Nat → ContactAttempt)
    (h : ∀ i, contactAcceptable (env i) = false) :
    ∀ fuel attempt, contactGo env attempt fuel = false := by
  intro fuel
  induction fuel with
  | zero => intro attempt; rfl
  | succ f ih =>
    intro attempt
    unfold contactGo
    cases henv : env attempt with
    | tErr => simp [ih]
    | resp s b =>
      have hs : (s == 200 || s == 201) = false := by
        have := h attempt; rwa [henv] at this
      simp only [hs]
      split
      · exact ih (attempt + 1)
      · simp [ih]

theorem searchGo_all_unacceptable (env : Nat → SearchAttempt) (now : Nat)
    (h : ∀ i, searchAcceptable (env i) = false) :
    ∀ fuel attempt, searchGo env now attempt fuel = [] := by
  intro fuel
  induction fuel with
  | zero => intro attempt; rfl
  | succ f ih =>
    intro attempt
    unfold searchGo
    have hs := h attempt
    cases henv : env attempt with
    | tErr => simp [ih]
    | resp s b p =>
      rw [henv] at hs
      simp only [searchAcceptable, Bool.and_eq_false_iff] at hs
      rcases hs with hs | hs
      · have hbne : (s != 200) = true := by simp [bne, hs]
        simp [hbne, ih]
      · cases p with
        | perr => simp [ih]
        | fields cls => simp at hs

theorem refreshGo_all_unacceptable (env : Nat → RefreshAttempt) (now : Nat)
    (h : ∀ i, refreshAcceptable (env i) = false) :
    ∀ fuel attempt tk cr, refreshGo env now attempt fuel tk cr = (false, tk, cr) := by
  intro fuel
  induction fuel with
  | zero => intro attempt tk cr; rfl
  | succ f ih =>
    intro attempt tk cr
    unfold refreshGo
    have hs := h attempt
    cases henv : env attempt with
    | tErr => simp [ih]
    | resp s b ck =>
      rw [henv] at hs
      simp only [refreshAcceptable] at hs
      have hbne : (s != 200) = true := by simp [bne, hs]
      simp [hbne, ih]

theorem contactGo_first_success (env : Nat → ContactAttempt) (s : Nat)
    (b : List Char) (henv : env 0 = .resp s b)
    (hsoft : softBlock s b = false) (hst : (s == 200 || s == 201) = true) :
    contactGo env 0 maxRetries = true := by
  have h20 : maxRetries = 19 + 1 := rfl
  rw [h20]
  unfold contactGo
  rw [henv]
  simp [hsoft, hst]

theorem searchGo_first_success (env : Nat → SearchAttempt) (now : Nat)
    (b : List Char) (cls : Option (List RawItem))
    (henv : env 0 = .resp 200 b (.fields cls)) (hsoft : softBlock 200 b = false) :
    searchGo env now 0 maxRetries = extractListings now cls := by
  have h20 : maxRetries = 19 + 1 := rfl
  rw [h20]
  unfold searchGo
  rw [henv]
  simp [hsoft]

theorem refreshGo_first_success (env : Nat → RefreshAttempt) (now : Nat)
    (b : List Char) (ck tk : Tokens) (cr : Option TsStr)
    (henv : env 0 = .resp 200 b ck) (hsoft : softBlock 200 b = false) :
    refreshGo env now 0 maxRetries tk cr = (true, mergeTokens tk ck, some (.good now)) := by
  have h20 : maxRetries = 19 + 1 := rfl
  rw [h20]
  unfold refreshGo
  rw [henv]
  simp [hsoft]

/-! ### Structural lemmas about the effect state -/

theorem dbUpdate_contactCalls (w : World) (p : DbWrite) (s : St) :
    ((dbUpdate w p s).2).contactCalls = s.contactCalls := by
  simp only [dbUpdate]; split <;> rfl

theorem dbUpdate_tokens (w : World) (p : DbWrite) (s : St) :
    ((dbUpdate w p s).2).tokens = s.tokens := by
  simp only [dbUpdate]; split <;> rfl

theorem dbUpdate_refreshCalls (w : World) (p : DbWrite) (s : St) :
    ((dbUpdate w p s).2).refreshCalls = s.refreshCalls := by
  simp only [dbUpdate]; split <;> rfl

theorem dbUpdate_fst (w : World) (p : DbWrite) (s : St) :
    (dbUpdate w p s).1 = w.dbOk s.writeCount := by
  simp only [dbUpdate]; split <;> rename_i hk <;> simp [hk]

theorem dbUpdate_writesDone_ok (w : World) (p : DbWrite) (s : St)
    (h : w.dbOk s.writeCount = true) :
    ((dbUpdate w p s).2).writesDone = s.writesDone ++ [p] := by
  simp [dbUpdate, h]

theorem dbUpdate_writesDone_mem (w : World) (p : DbWrite) (s : St) (q : DbWrite)
    (hq : q ∈ ((dbUpdate w p s).2).writesDone) : q ∈ s.writesDone ∨ q = p := by
  simp only [dbUpdate] at hq
  split at hq
  · simp only [List.mem_append, List.mem_singleton] at hq
    exact hq
  · exact Or.inl hq

theorem dbUpdate_row_listing_session (w : World) (sd : SessionDetails) (s : St) :
    ((dbUpdate w (.wSession sd) s).2).row.listing_data = s.row.listing_data := by
  simp only [dbUpdate]; split <;> rfl

theorem dbUpdate_row_listing_config (w : World) (c : Config) (s : St) :
    ((dbUpdate w (.wConfig c) s).2).row.listing_data = s.row.listing_data := by
  simp only [dbUpdate]; split <;> rfl

theorem dbUpdate_row_ok (w : World) (p : DbWrite) (s : St)
    (h : w.dbOk s.writeCount = true) :
    ((dbUpdate w p s).2).row = applyWrite p s.row := by
  simp [dbUpdate, h]

theorem dbUpdate_row_listing_lastupd_ok (w : World) (d : ListingData) (t : Nat)
    (s : St) (h : w.dbOk s.writeCount = true) :
    ((dbUpdate w (.wListingLastUpd d t) s).2).row.listing_data = some d := by
  rw [dbUpdate_row_ok w _ s h]
  rfl

theorem refresh_session_contactCalls (w : World) (s : St) :
    ((refresh_session w s).2).contactCalls = s.contactCalls := rfl

theorem refresh_session_writesDone (w : World) (s : St) :
    ((refresh_session w s).2).writesDone = s.writesDone := rfl

theorem refresh_session_writeCount (w : World) (s : St) :
    ((refresh_session w s).2).writeCount = s.writeCount := rfl

theorem refresh_session_row (w : World) (s : St) :
    ((refresh_session w s).2).row = s.row := rfl

theorem refresh_session_refreshCalls (w : World) (s : St) :
    ((refresh_session w s).2).refreshCalls = s.refreshCalls + 1 := rfl

theorem ensureFallback_contactCalls (w : World) (acct : Account) (s : St) :
    ((ensureFallback w acct s).2).contactCalls = s.contactCalls := by
  simp only [ensureFallback]
  split <;> split <;>
    simp [dbUpdate_contactCalls, refresh_session_contactCalls]

theorem ensureFallback_row_listing (w : World) (acct : Account) (s : St) :
    ((ensureFallback w acct s).2).row.listing_data = s.row.listing_data := by
  simp only [ensureFallback]
  split <;> split <;>
    simp [dbUpdate_row_listing_session, dbUpdate_row_listing_config,
      refresh_session_row]

theorem ensureFallback_refreshCalls (w : World) (acct : Account) (s : St) :
    ((ensureFallback w acct s).2).refreshCalls = s.refreshCalls + 1 := by
  simp only [ensureFallback]
  split <;> split <;>
    simp [dbUpdate_refreshCalls, refresh_session_refreshCalls]

theorem ensureFallback_writes_mem (w : World) (acct : Account) (s : St)
    (q : DbWrite) (hq : q ∈ ((ensureFallback w acct s).2).writesDone) :
    q ∈ s.writesDone ∨ (∃ sd, q = .wSession sd) ∨
      q = .wConfig (disableConfig (getConfig acct)) := by
  simp only [ensureFallback] at hq
  split at hq <;> split at hq <;>
    rcases dbUpdate_writesDone_mem _ _ _ _ hq with h | h <;>
    first
    | exact Or.inl (by rwa [refresh_session_writesDone] at h)
    | exact Or.inr (Or.inl ⟨_, h⟩)
    | exact Or.inr (Or.inr h)

theorem ensure_contactCalls (w : World) (acct : Account) (s0 : St) :
    ((ensure_valid_session w acct s0).2).contactCalls = s0.contactCalls := by
  simp only [ensure_valid_session]
  split
  · rfl
  · split
    · split
      · split <;> split <;>
          simp [ensureFallback_contactCalls, dbUpdate_contactCalls,
            refresh_session_contactCalls]
      · rfl
    · simp [ensureFallback_contactCalls]

theorem ensure_row_listing (w : World) (acct : Account) (s0 : St) :
    ((ensure_valid_session w acct s0).2).row.listing_data = s0.row.listing_data := by
  simp only [ensure_valid_session]
  split
  · rfl
  · split
    · split
      · split <;> split <;>
          simp [ensureFallback_row_listing, dbUpdate_row_listing_session,
            dbUpdate_row_listing_config, refresh_session_row]
      · rfl
    · simp [ensureFallback_row_listing]

theorem ensure_writes_mem (w : World) (acct : Account) (s0 : St) (q : DbWrite)
    (hq : q ∈ ((ensure_valid_session w acct s0).2).writesDone) :
    q ∈ s0.writesDone ∨ (∃ sd, q = .wSession sd) ∨
      q = .wConfig (disableConfig (getConfig acct)) := by
  simp only [ensure_valid_session] at hq
  split at hq
  · exact Or.inl hq
  · split at hq
    · split at hq
      · split at hq <;> split at hq <;>
          first
          | (rcases ensureFallback_writes_mem _ _ _ _ hq with h | h
             · rcases dbUpdate_writesDone_mem _ _ _ _ h with h2 | h2
               · exact Or.inl (by rwa [refresh_session_writesDone] at h2)
               · exact Or.inr (by subst h2; simp)
             · exact Or.inr h)
          | (rcases dbUpdate_writesDone_mem _ _ _ _ hq with h | h
             · exact Or.inl (by rwa [refresh_session_writesDone] at h)
             · exact Or.inr (by subst h; simp))
      · exact Or.inl hq
    · have h' := ensureFallback_writes_mem w acct _ q hq
      exact h'

theorem dispatchLoop_writesDone (w : World) (h : List Nat) :
    ∀ offers acc s, ((dispatchLoop w h offers acc s).2).writesDone = s.writesDone := by
  intro offers
  induction offers with
  | nil => intro acc s; rfl
  | cons o rest ih =>
    intro acc s
    simp only [dispatchLoop]
    split
    · exact ih _ _
    · split <;> exact ih _ _

theorem dispatchLoop_row (w : World) (h : List Nat) :
    ∀ offers acc s, ((dispatchLoop w h offers acc s).2).row = s.row := by
  intro offers
  induction offers with
  | nil => intro acc s; rfl
  | cons o rest ih =>
    intro acc s
    simp only [dispatchLoop]
    split
    · exact ih _ _
    · split <;> exact ih _ _

theorem dispatchLoop_contactCalls_mem (w : World) (h : List Nat) (x : Nat) :
    ∀ offers acc s, x ∈ ((dispatchLoop w h offers acc s).2).contactCalls →
      x ∈ s.contactCalls ∨ h.contains x = false := by
  intro offers
  induction offers with
  | nil => intro acc s hx; exact Or.inl hx
  | cons o rest ih =>
    intro acc s hx
    simp only [dispatchLoop] at hx
    split at hx
    · exact ih _ _ hx
    · rename_i hcon
      have step : ∀ acc', x ∈ ((dispatchLoop w h rest acc'
          { s with contactCalls := s.contactCalls ++ [o.id] }).2).contactCalls →
          x ∈ s.contactCalls ∨ h.contains x = false := by
        intro acc' hx'
        rcases ih _ _ hx' with hmem | hfree
        · simp only [List.mem_append, List.mem_singleton] at hmem
          rcases hmem with hmem | hmem
          · exact Or.inl hmem
          · subst hmem
            exact Or.inr (by simpa using hcon)
        · exact Or.inr hfree
      split at hx
      · exact step _ hx
      · exact step _ hx

theorem dispatchLoop_newly_mem (w : World) (h : List Nat) (x : Nat) :
    ∀ offers acc s, x ∈ ((dispatchLoop w h offers acc s).1).newly_contacted_ids →
      x ∈ acc.newly_contacted_ids ∨ h.contains x = false := by
  intro offers
  induction offers with
  | nil => intro acc s hx; exact Or.inl hx
  | cons o rest ih =>
    intro acc s hx
    simp only [dispatchLoop] at hx
    split at hx
    · have h' := ih _ _ hx
      exact h'
    · rename_i hcon
      split at hx
      · rcases ih _ _ hx with hmem | hfree
        · simp only [List.mem_append, List.mem_singleton] at hmem
          rcases hmem with hmem | hmem
          · exact Or.inl hmem
          · subst hmem
            exact Or.inr (by simpa using hcon)
        · exact Or.inr hfree
      · have h' := ih _ _ hx
        exact h'

theorem dispatchLoop_skipped (w : World) (h : List Nat) :
    ∀ offers acc s, ((dispatchLoop w h offers acc s).1).skipped =
      acc.skipped + (offers.filter (fun o => h.contains o.id)).length := by
  intro offers
  induction offers with
  | nil => intro acc s; simp [dispatchLoop]
  | cons o rest ih =>
    intro acc s
    simp only [dispatchLoop]
    split <;> rename_i hcon
    · rw [ih]
      simp only [List.filter_cons, hcon, if_true, List.length_cons]
      omega
    · have hcf : h.contains o.id = false := by simpa using hcon
      split <;>
        rw [ih, List.filter_cons, if_neg (by simpa using hcf)]

/-- All attempts before the last are soft-blocked; the loop walks through
them to the final attempt, where the soft-block marker is no longer able to
force a retry. -/
theorem contactGo_soft_till_last (env : Nat → ContactAttempt)
    (hsoftrun : ∀ i, i < 19 → softContact (env i) = true)
    (s : Nat) (b : List Char) (hlast : env 19 = .resp s b)
    (hst : (s == 200 || s == 201) = true) :
    ∀ fuel attempt, attempt + fuel = 20 → 0 < fuel →
      contactGo env attempt fuel = true := by
  intro fuel
  induction fuel with
  | zero => intro attempt _ hpos; exact absurd hpos (by simp)
  | succ f ih =>
    intro attempt hsum _
    unfold contactGo
    rcases Nat.eq_zero_or_pos f with hf | hf
    · subst hf
      have h19 : attempt = 19 := by omega
      subst h19
      rw [hlast]
      simp [hst]
    · have hlt : attempt < 19 := by omega
      have hsoftA := hsoftrun attempt hlt
      cases henv : env attempt with
      | tErr => rw [henv] at hsoftA; simp [softContact] at hsoftA
      | resp s' b' =>
        rw [henv] at hsoftA
        simp only [softContact] at hsoftA
        have hfl : (f == 0) = false := by simp [Nat.pos_iff_ne_zero.mp hf]
        simp only [hfl, hsoftA, Bool.not_false, Bool.and_true, if_true]
        exact ih (attempt + 1) (by omega) hf

/-! ### Branch-pinning lemmas for the session guard and the cycle -/

theorem dbUpdate_writes_append (w : World) (p : DbWrite) (s : St) :
    ∃ d, ((dbUpdate w p s).2).writesDone = s.writesDone ++ d ∧ ∀ q ∈ d, q = p := by
  simp only [dbUpdate]
  split
  · exact ⟨[p], rfl, by simp⟩
  · exact ⟨[], by simp, by simp⟩

theorem ensureFallback_storeOk_fst (w : World) (acct : Account) (s : St)
    (hdb : ∀ k, w.dbOk k = true) :
    (ensureFallback w acct s).1 = .ok (refresh_session w s).1 := by
  simp only [ensureFallback]
  cases hr : (refresh_session w s).1 <;> simp [hr, dbUpdate_fst, hdb]

theorem ensureFallback_storeOk_writes_fail (w : World) (acct : Account) (s : St)
    (hdb : ∀ k, w.dbOk k = true) (hr : (refresh_session w s).1 = false) :
    ((ensureFallback w acct s).2).writesDone =
      s.writesDone ++ [.wConfig (disableConfig (getConfig acct))] := by
  simp only [ensureFallback, hr]
  simp [dbUpdate_fst, hdb, dbUpdate_writesDone_ok, refresh_session_writesDone]

theorem ensureFallback_storeOk_writes_ok (w : World) (acct : Account) (s : St)
    (hdb : ∀ k, w.dbOk k = true) (hr : (refresh_session w s).1 = true) :
    ((ensureFallback w acct s).2).writesDone =
      s.writesDone ++ [.wSession (get_session_dict w (refresh_session w s).2)] := by
  simp only [ensureFallback, hr]
  simp [dbUpdate_fst, hdb, dbUpdate_writesDone_ok, refresh_session_writesDone]

theorem ensure_no_session (w : World) (acct : Account) (s0 : St)
    (hsd : acct.session_details = none) :
    ensure_valid_session w acct s0 = (.ok false, s0) := by
  simp [ensure_valid_session, hsd]

theorem ensure_fresh (w : World) (acct : Account) (sd : SessionDetails) (t : Nat)
    (s0 : St) (hsd : acct.session_details = some sd)
    (hts : sd.session_created_at = some (.good t)) (hfresh : w.now - t ≤ 3000) :
    ensure_valid_session w acct s0 =
      (.ok true, { s0 with tokens := sd.tokens, session_created_at := some (.good t) }) := by
  simp only [ensure_valid_session, hsd, hts]
  rw [if_neg (by omega)]

theorem ensure_stale_true (w : World) (acct : Account) (sd : SessionDetails)
    (t : Nat) (s0 : St) (hdb : ∀ k, w.dbOk k = true)
    (hsd : acct.session_details = some sd)
    (hts : sd.session_created_at = some (.good t)) (hstale : w.now - t > 3000)
    (hr : (refresh_session w
      { s0 with tokens := sd.tokens, session_created_at := some (.good t) }).1 = true) :
    ensure_valid_session w acct s0 =
      (.ok true, (dbUpdate w
        (.wSession (get_session_dict w (refresh_session w
          { s0 with tokens := sd.tokens, session_created_at := some (.good t) }).2))
        (refresh_session w
          { s0 with tokens := sd.tokens, session_created_at := some (.good t) }).2).2) := by
  simp only [ensure_valid_session, hsd, hts]
  rw [if_pos hstale]
  simp [hr, dbUpdate_fst, hdb]

theorem ensure_stale_false (w : World) (acct : Account) (sd : SessionDetails)
    (t : Nat) (s0 : St) (hdb : ∀ k, w.dbOk k = true)
    (hsd : acct.session_details = some sd)
    (hts : sd.session_created_at = some (.good t)) (hstale : w.now - t > 3000)
    (hr : (refresh_session w
      { s0 with tokens := sd.tokens, session_created_at := some (.good t) }).1 = false) :
    ensure_valid_session w acct s0 =
      (.ok false, (dbUpdate w (.wConfig (disableConfig (getConfig acct)))
        (refresh_session w
          { s0 with tokens := sd.tokens, session_created_at := some (.good t) }).2).2) := by
  simp only [ensure_valid_session, hsd, hts]
  rw [if_pos hstale]
  simp [hr, dbUpdate_fst, hdb]

theorem ensure_nots (w : World) (acct : Account) (sd : SessionDetails) (s0 : St)
    (hsd : acct.session_details = some sd)
    (hts : sd.session_created_at = none ∨ sd.session_created_at = some .bad) :
    ensure_valid_session w acct s0 = ensureFallback w acct
      { s0 with tokens := sd.tokens, session_created_at := sd.session_created_at } := by
  rcases hts with h | h <;> simp [ensure_valid_session, hsd, h]

theorem ensure_refreshCalls_stale (w : World) (acct : Account) (sd : SessionDetails)
    (t : Nat) (s0 : St) (hsd : acct.session_details = some sd)
    (hts : sd.session_created_at = some (.good t)) (hstale : w.now - t > 3000) :
    s0.refreshCalls + 1 ≤ ((ensure_valid_session w acct s0).2).refreshCalls := by
  simp only [ensure_valid_session, hsd, hts]
  rw [if_pos hstale]
  split <;> split <;>
    simp [ensureFallback_refreshCalls, dbUpdate_refreshCalls,
      refresh_session_refreshCalls]

theorem ensure_refreshCalls_nots (w : World) (acct : Account) (sd : SessionDetails)
    (s0 : St) (hsd : acct.session_details = some sd)
    (hts : sd.session_created_at = none ∨ sd.session_created_at = some .bad) :
    ((ensure_valid_session w acct s0).2).refreshCalls = s0.refreshCalls + 1 := by
  rw [ensure_nots w acct sd s0 hsd hts, ensureFallback_refreshCalls]

theorem run_of_ensure_error (w : World) (acct : Account) (e : Unit) (s : St)
    (hE : ensure_valid_session w acct (initSt acct) = (.error e, s)) :
    run_scraper_for_account w acct = (.error e, s) := by
  simp [run_scraper_for_account, hE]

theorem run_of_ensure_false (w : World) (acct : Account) (s : St)
    (hE : ensure_valid_session w acct (initSt acct) = (.ok false, s)) :
    run_scraper_for_account w acct = (.ok (false, 0), s) := by
  simp [run_scraper_for_account, hE]

theorem run_of_ensure_true (w : World) (acct : Account)
    (hE : (ensure_valid_session w acct (initSt acct)).1 = .ok true) :
    run_scraper_for_account w acct =
      runAfterSession w acct (getConfig acct)
        (ensure_valid_session w acct (initSt acct)).2 := by
  rcases hp : ensure_valid_session w acct (initSt acct) with ⟨r, s⟩
  rw [hp] at hE
  have hr : r = .ok true := hE
  subst hr
  simp [run_scraper_for_account, hp]

theorem runContactTail_fst (w : World) (config : Config) (updated : ListingData)
    (history : List Nat) (new_offers : List Listing) (s2 : St) :
    (runContactTail w config updated history new_offers s2).1 =
      .ok (true, new_offers.length) := rfl

theorem runContactTail_writes (w : World) (config : Config)
    (updated : ListingData) (history : List Nat) (new_offers : List Listing)
    (s2 : St) :
    ∃ ds, ((runContactTail w config updated history new_offers s2).2).writesDone =
        s2.writesDone ++ ds ∧ ∀ q ∈ ds,
          (∃ d, q = .wListing d ∧ d.offers = updated.offers ∧
            d.contacted_ids.length ≤ 1000) ∨
          (∃ c, q = .wConfig c ∧ c.scrape_enabled = config.scrape_enabled) := by
  simp only [runContactTail]
  split
  · -- counter write skipped
    split
    · rw [dispatchLoop_writesDone]
      exact ⟨[], by simp, by simp⟩
    · obtain ⟨d1, hd1, hq1⟩ := dbUpdate_writes_append w _ _
      rw [hd1, dispatchLoop_writesDone]
      refine ⟨d1, rfl, ?_⟩
      intro q hmem
      rw [hq1 q hmem]
      exact Or.inl ⟨_, rfl, rfl, List.length_take_le _ _⟩
  · -- counter write present
    obtain ⟨d2, hd2, hq2⟩ := dbUpdate_writes_append w _ _
    rw [hd2]
    split
    · rw [dispatchLoop_writesDone]
      refine ⟨d2, rfl, ?_⟩
      intro q hmem
      rw [hq2 q hmem]
      exact Or.inr ⟨_, rfl, rfl⟩
    · obtain ⟨d1, hd1, hq1⟩ := dbUpdate_writes_append w _ _
      rw [hd1, dispatchLoop_writesDone]
      refine ⟨d1 ++ d2, by rw [List.append_assoc], ?_⟩
      intro q hmem
      rcases List.mem_append.mp hmem with hmem | hmem
      · rw [hq1 q hmem]
        exact Or.inl ⟨_, rfl, rfl, List.length_take_le _ _⟩
      · rw [hq2 q hmem]
        exact Or.inr ⟨_, rfl, rfl⟩

theorem runAfterSession_fst (w : World) (acct : Account) (config : Config)
    (s1 : St) (hdb : ∀ k, w.dbOk k = true) :
    ∃ n, (runAfterSession w acct config s1).1 = .ok (true, n) := by
  simp only [runAfterSession]
  split
  · simp only [dbUpdate_fst, hdb]
    exact ⟨0, rfl⟩
  · split
    · simp only [dbUpdate_fst, hdb]
      exact ⟨0, rfl⟩
    · simp only [dbUpdate_fst, hdb, Bool.not_true, Bool.false_eq_true, if_false]
      split
      · exact ⟨_, rfl⟩
      · split
        · exact ⟨_, rfl⟩
        · split
          · exact ⟨_, rfl⟩
          · split
            · exact ⟨_, rfl⟩
            · exact ⟨_, runContactTail_fst w config _ _ _ _⟩

theorem runAfterSession_writes (w : World) (acct : Account) (config : Config)
    (s1 : St) :
    ∃ ds, ((runAfterSession w acct config s1).2).writesDone =
        s1.writesDone ++ ds ∧ ∀ q ∈ ds, postWrite config q := by
  simp only [runAfterSession]
  split
  · obtain ⟨d, hd, hq⟩ := dbUpdate_writes_append w (.wLastUpd w.now) s1
    split <;>
      exact ⟨d, hd, fun q hmem => Or.inl ⟨_, hq q hmem⟩⟩
  · split
    · obtain ⟨d, hd, hq⟩ := dbUpdate_writes_append w (.wLastUpd w.now) s1
      split <;>
        exact ⟨d, hd, fun q hmem => Or.inl ⟨_, hq q hmem⟩⟩
    · split
      · -- snapshot save failed
        obtain ⟨d0, hd0, hq0⟩ := dbUpdate_writes_append w _ s1
        refine ⟨d0, hd0, ?_⟩
        intro q hmem
        rw [hq0 q hmem]
        exact Or.inr (Or.inl ⟨_, _, rfl, List.length_take_le _ _⟩)
      · split
        · -- first run
          obtain ⟨d0, hd0, hq0⟩ := dbUpdate_writes_append w _ s1
          refine ⟨d0, hd0, ?_⟩
          intro q hmem
          rw [hq0 q hmem]
          exact Or.inr (Or.inl ⟨_, _, rfl, List.length_take_le _ _⟩)
        · split
          · -- no contact form
            obtain ⟨d0, hd0, hq0⟩ := dbUpdate_writes_append w _ s1
            refine ⟨d0, hd0, ?_⟩
            intro q hmem
            rw [hq0 q hmem]
            exact Or.inr (Or.inl ⟨_, _, rfl, List.length_take_le _ _⟩)
          · split
            · -- no message
              obtain ⟨d0, hd0, hq0⟩ := dbUpdate_writes_append w _ s1
              refine ⟨d0, hd0, ?_⟩
              intro q hmem
              rw [hq0 q hmem]
              exact Or.inr (Or.inl ⟨_, _, rfl, List.length_take_le _ _⟩)
            · split
              · -- blank message
                obtain ⟨d0, hd0, hq0⟩ := dbUpdate_writes_append w _ s1
                refine ⟨d0, hd0, ?_⟩
                intro q hmem
                rw [hq0 q hmem]
                exact Or.inr (Or.inl ⟨_, _, rfl, List.length_take_le _ _⟩)
              · -- dispatch tail
                obtain ⟨d0, hd0, hq0⟩ := dbUpdate_writes_append w _ s1
                obtain ⟨ds, hds, hqs⟩ := runContactTail_writes w config _ _ _ _
                rw [hds, hd0]
                refine ⟨d0 ++ ds, by rw [List.append_assoc], ?_⟩
                intro q hmem
                rcases List.mem_append.mp hmem with hmem | hmem
                · rw [hq0 q hmem]
                  exact Or.inr (Or.inl ⟨_, _, rfl, List.length_take_le _ _⟩)
                · rcases hqs q hmem with ⟨d, hq, hoff, hcnt⟩ | ⟨c, hq, hsc⟩
                  · refine Or.inr (Or.inr (Or.inl ⟨d, hq, ?_, hcnt⟩))
                    rw [hoff]
                    exact List.length_take_le _ _
                  · exact Or.inr (Or.inr (Or.inr ⟨c, hq, hsc⟩))

theorem dbUpdate_row_listing_wListing (w : World) (d : ListingData) (s : St) :
    ((dbUpdate w (.wListing d) s).2).row.listing_data = some d ∨
    ((dbUpdate w (.wListing d) s).2).row.listing_data = s.row.listing_data := by
  simp only [dbUpdate]
  split
  · exact Or.inl rfl
  · exact Or.inr rfl

/-- Whatever the dispatch tail does to the row, the listing data it leaves
behind keeps the offers of the snapshot it was given. -/
theorem runContactTail_row_offers (w : World) (config : Config)
    (updated : ListingData) (history : List Nat) (new_offers : List Listing)
    (s2 : St) (hs2 : s2.row.listing_data = some updated) :
    ∃ ld, ((runContactTail w config updated history new_offers s2).2).row.listing_data =
        some ld ∧ ld.offers = updated.offers := by
  simp only [runContactTail]
  have hrow := dispatchLoop_row w history new_offers emptyDispatchAcc s2
  split
  · split
    · exact ⟨updated, by rw [hrow, hs2], rfl⟩
    · rcases dbUpdate_row_listing_wListing w _ _ with h | h
      · exact ⟨_, h, rfl⟩
      · rw [hrow, hs2] at h
        exact ⟨updated, h, rfl⟩
  · rw [dbUpdate_row_listing_config]
    split
    · exact ⟨updated, by rw [hrow, hs2], rfl⟩
    · rcases dbUpdate_row_listing_wListing w _ _ with h | h
      · exact ⟨_, h, rfl⟩
      · rw [hrow, hs2] at h
        exact ⟨updated, h, rfl⟩

theorem runContactTail_contactCalls_mem (w : World) (config : Config)
    (updated : ListingData) (history : List Nat) (new_offers : List Listing)
    (s2 : St) (x : Nat)
    (hx : x ∈ ((runContactTail w config updated history new_offers s2).2).contactCalls) :
    x ∈ s2.contactCalls ∨ history.contains x = false := by
  simp only [runContactTail] at hx
  split at hx
  · split at hx
    · exact dispatchLoop_contactCalls_mem w history x new_offers emptyDispatchAcc s2 hx
    · rw [dbUpdate_contactCalls] at hx
      exact dispatchLoop_contactCalls_mem w history x new_offers emptyDispatchAcc s2 hx
  · rw [dbUpdate_contactCalls] at hx
    split at hx
    · exact dispatchLoop_contactCalls_mem w history x new_offers emptyDispatchAcc s2 hx
    · rw [dbUpdate_contactCalls] at hx
      exact dispatchLoop_contactCalls_mem w history x new_offers emptyDispatchAcc s2 hx

theorem matchListing_contacted (a : Account) :
    (match a.listing_data with
      | some d => d
      | none => emptyListingData).contacted_ids = historyOf a := by
  unfold historyOf
  cases a.listing_data <;> rfl

theorem matchListing_offers (a : Account) :
    (match a.listing_data with
      | some d => d
      | none => emptyListingData).offers = offersOf a := by
  unfold offersOf
  cases a.listing_data <;> rfl

theorem runAfterSession_contactCalls_mem (w : World) (acct : Account)
    (config : Config) (s1 : St) (x : Nat)
    (hx : x ∈ ((runAfterSession w acct config s1).2).contactCalls) :
    x ∈ s1.contactCalls ∨ (historyOf acct).contains x = false := by
  simp only [runAfterSession] at hx
  split at hx
  · split at hx <;> rw [dbUpdate_contactCalls] at hx <;> exact Or.inl hx
  · split at hx
    · split at hx <;> rw [dbUpdate_contactCalls] at hx <;> exact Or.inl hx
    · split at hx
      · rw [dbUpdate_contactCalls] at hx
        exact Or.inl hx
      · split at hx
        · rw [dbUpdate_contactCalls] at hx
          exact Or.inl hx
        · split at hx
          · rw [dbUpdate_contactCalls] at hx
            exact Or.inl hx
          · split at hx
            · rw [dbUpdate_contactCalls] at hx
              exact Or.inl hx
            · split at hx
              · rw [dbUpdate_contactCalls] at hx
                exact Or.inl hx
              · rcases runContactTail_contactCalls_mem w config _ _ _ _ x hx with h | h
                · rw [dbUpdate_contactCalls] at h
                  exact Or.inl h
                · rw [matchListing_contacted acct] at h
                  exact Or.inr h

/-- No contact call of a whole cycle carries an id from the stored
contacted-id history. -/
theorem run_contactCalls_mem (w : World) (acct : Account) (x : Nat)
    (hx : x ∈ ((run_scraper_for_account w acct).2).contactCalls) :
    (historyOf acct).contains x = false := by
  rcases hE : ensure_valid_session w acct (initSt acct) with ⟨r, s⟩
  have hcc : s.contactCalls = [] := by
    have h := ensure_contactCalls w acct (initSt acct)
    rw [hE] at h
    exact h
  match r with
  | .error e =>
    rw [run_of_ensure_error w acct e s hE] at hx
    rw [hcc] at hx
    exact absurd hx (List.not_mem_nil x)
  | .ok false =>
    rw [run_of_ensure_false w acct s hE] at hx
    rw [hcc] at hx
    exact absurd hx (List.not_mem_nil x)
  | .ok true =>
    have hrun : run_scraper_for_account w acct =
        runAfterSession w acct (getConfig acct) s := by
      simp [run_scraper_for_account, hE]
    rw [hrun] at hx
    rcases runAfterSession_contactCalls_mem w acct (getConfig acct) s x hx with h | h
    · rw [hcc] at h
      exact absurd h (List.not_mem_nil x)
    · exact h

/-- Under an always-succeeding store the session guard never raises. -/
theorem ensure_storeOk (w : World) (acct : Account) (s0 : St)
    (hdb : ∀ k, w.dbOk k = true) :
    ∃ b, (ensure_valid_session w acct s0).1 = .ok b := by
  simp only [ensure_valid_session]
  split
  · exact ⟨false, rfl⟩
  · split
    · split
      · split
        · split
          · exact ⟨true, rfl⟩
          · rename_i h
            exfalso
            apply h
            rw [dbUpdate_fst]
            exact hdb _
        · split
          · exact ⟨false, rfl⟩
          · rename_i h
            exfalso
            apply h
            rw [dbUpdate_fst]
            exact hdb _
      · exact ⟨true, rfl⟩
    · exact ⟨(refresh_session w _).1, ensureFallback_storeOk_fst w acct _ hdb⟩

/-- When the store always succeeds and the session guard reports a usable
session, the cycle always reports success. -/
theorem run_true_fst (w : World) (acct : Account) (s1 : St)
    (hdb : ∀ k, w.dbOk k = true)
    (hE : ensure_valid_session w acct (initSt acct) = (.ok true, s1)) :
    ∃ n, (run_scraper_for_account w acct).1 = .ok (true, n) := by
  simp only [run_scraper_for_account, hE, Bool.not_true, Bool.false_eq_true,
    if_false]
  exact runAfterSession_fst w acct (getConfig acct) s1 hdb

/-- The store writes the cycle issues after a usable-session verdict extend
the guard's writes by `postWrite`-shaped entries only. -/
theorem run_true_writes (w : World) (acct : Account) (s1 : St)
    (hE : ensure_valid_session w acct (initSt acct) = (.ok true, s1)) :
    ∃ ds, ((run_scraper_for_account w acct).2).writesDone = s1.writesDone ++ ds ∧
      ∀ q ∈ ds, postWrite (getConfig acct) q := by
  simp only [run_scraper_for_account, hE, Bool.not_true, Bool.false_eq_true,
    if_false]
  exact runAfterSession_writes w acct (getConfig acct) s1

/-! ### Claim C2 — the bounded-retry protocol -/

/-- Claim C2, counterexample.  The claim states that when all 20 attempts
are soft-block the call returns the last failure, never a success value.
In the code the soft-block check on the final attempt neither retries nor
returns: it falls through to the status check, so an environment whose
every attempt is a 200 whose body contains "captcha" — soft-blocked on all
20 attempts, as the first conjunct certifies — makes `contact_listing`
return success. -/
theorem claim_C2_counterexample :
    softBlock 200 captchaMarker = true ∧
    contact_listing tkGood envCaptcha200 = true := by
  constructor
  · rfl
  · rfl

/-- Claim C2, amended.  Each attempt is classified soft-block iff the
status is 403 or the lowercased body contains a "captcha" or "403" marker.
A soft-blocked attempt retries only while attempts remain; on the final
attempt the marker is ignored and the response is judged by status alone.
Success requires status exactly 200 (refresh, search) or 200/201 (contact),
not any 2xx.  On an acceptable first attempt the call returns immediately;
when every attempt is unacceptable (transport error, unacceptable status,
or unparseable search body) the call returns the failure value. -/
theorem claim_C2_amended_retry_policy
    (status : Nat) (body : List Char)
    (cenv : Nat → ContactAttempt) (hc : ∀ i, contactAcceptable (cenv i) = false)
    (senv : Nat → SearchAttempt) (hs : ∀ i, searchAcceptable (senv i) = false)
    (renv : Nat → RefreshAttempt) (hr : ∀ i, refreshAcceptable (renv i) = false)
    (now : Nat) (tk : Tokens) (cr : Option TsStr)
    (cok : Nat → ContactAttempt) (s1 : Nat) (b1 : List Char)
    (hok0 : cok 0 = .resp s1 b1) (hsoft1 : softBlock s1 b1 = false)
    (hst1 : (s1 == 200 || s1 == 201) = true)
    (sok : Nat → SearchAttempt) (b4 : List Char) (cls : Option (List RawItem))
    (hsok : sok 0 = .resp 200 b4 (.fields cls)) (hsoft4 : softBlock 200 b4 = false)
    (clast : Nat → ContactAttempt)
    (hsoftrun : ∀ i, i < 19 → softContact (clast i) = true)
    (s3 : Nat) (b3 : List Char) (hlast : clast 19 = .resp s3 b3)
    (hst3 : (s3 == 200 || s3 == 201) = true) :
    (softBlock status body = true ↔ status = 403 ∨
      (∃ p t, lowerChars body = p ++ captchaMarker ++ t) ∨
      (∃ p t, lowerChars body = p ++ marker403 ++ t)) ∧
    contactGo cenv 0 maxRetries = false ∧
    searchGo senv now 0 maxRetries = [] ∧
    (refreshGo renv now 0 maxRetries tk cr).1 = false ∧
    contactGo cok 0 maxRetries = true ∧
    searchGo sok now 0 maxRetries = extractListings now cls ∧
    contactGo clast 0 maxRetries = true := by
  refine ⟨softBlock_iff status body, ?_, ?_, ?_, ?_, ?_, ?_⟩
  · exact contactGo_all_unacceptable cenv hc maxRetries 0
  · exact searchGo_all_unacceptable senv now hs maxRetries 0
  · rw [refreshGo_all_unacceptable renv now hr maxRetries 0 tk cr]
  · exact contactGo_first_success cok s1 b1 hok0 hsoft1 hst1
  · exact searchGo_first_success sok now b4 cls hsok hsoft4
  · exact contactGo_soft_till_last clast hsoftrun s3 b3 hlast hst3 maxRetries 0
      rfl (by decide)

/-- Claim C2, witness: the amended theorem applied at concrete
environments. -/
theorem claim_C2_witness :
    (∀ i, contactAcceptable (envContact500 i) = false) ∧
    contactGo envContact500 0 maxRetries = false ∧
    searchGo envSearch500 0 0 maxRetries = [] ∧
    (refreshGo envRefresh500 0 0 maxRetries tkGood none).1 = false ∧
    contactGo (fun i => if i < 19 then .resp 403 [] else .resp 200 []) 0
      maxRetries = true := by
  have h := claim_C2_amended_retry_policy 403 []
    envContact500 (fun i => rfl)
    envSearch500 (fun i => rfl)
    envRefresh500 (fun i => rfl)
    0 tkGood none
    (fun _ => .resp 200 []) 200 [] rfl rfl rfl
    envSearchZero [] (some []) rfl rfl
    (fun i => if i < 19 then .resp 403 [] else .resp 200 [])
    (fun i hi => by simp [hi, softContact, softBlock])
    200 [] (by simp) rfl
  exact ⟨fun i => rfl, h.2.1, h.2.2.1, h.2.2.2.1, h.2.2.2.2.2.2⟩

/-! ### Claim C7 — failure vs zero results -/

/-- Claim C7, counterexample.  The claim states that the value
`search_listings` returns after exhausting its retry budget is
distinguishable from the one a successful zero-match search returns.  In
the code both are the same empty list: a search whose 20 attempts are all
hard 500s and a first-attempt 200 without a `classifieds` key return equal
values. -/
theorem claim_C7_counterexample :
    search_listings tkGood envSearch500 0 = [] ∧
    search_listings tkGood envSearchZero 0 = [] ∧
    search_listings tkGood envSearch500 0 = search_listings tkGood envSearchZero 0 := by
  exact ⟨rfl, rfl, rfl⟩

/-- Claim C7, amended.  `search_listings` signals failure by returning the
empty list — the very value a successful search with zero matching listings
returns — so the caller cannot distinguish the two; `run_scraper_for_account`
maps an empty result to success with zero offers after stamping
`last_updated_at`. -/
theorem claim_C7_amended_empty_failure (tk : Tokens) (env : Nat → SearchAttempt)
    (now : Nat) (hfail : ∀ i, searchAcceptable (env i) = false)
    (w : World) (acct : Account) (s1 : St)
    (hdb : ∀ k, w.dbOk k = true)
    (hE : ensure_valid_session w acct (initSt acct) = (.ok true, s1))
    (hempty : search_listings s1.tokens w.searchEnv w.now = []) :
    search_listings tk env now = [] ∧
    search_listings tk env now = search_listings tk envSearchZero now ∧
    (run_scraper_for_account w acct).1 = .ok (true, 0) := by
  have h1 : search_listings tk env now = [] := by
    unfold search_listings
    split
    · exact searchGo_all_unacceptable env now hfail maxRetries 0
    · rfl
  have h2 : search_listings tk envSearchZero now = [] := by
    unfold search_listings
    split
    · exact searchGo_first_success envSearchZero now [] (some []) rfl rfl
    · rfl
  refine ⟨h1, by rw [h1, h2], ?_⟩
  simp only [run_scraper_for_account, hE, Bool.not_true, Bool.false_eq_true,
    if_false]
  simp [runAfterSession, hempty, dbUpdate_fst, hdb]

/-- Claim C7, witness: the amended theorem applied at a concrete world in
which every search attempt hard-fails. -/
theorem claim_C7_witness :
    search_listings tkGood envSearch500 100 = [] ∧
    (run_scraper_for_account wSearchFail acctScenario).1 = .ok (true, 0) := by
  have h := claim_C7_amended_empty_failure tkGood envSearch500 100
    (fun i => rfl) wSearchFail acctScenario
    { initSt acctScenario with tokens := tkGood, session_created_at := some (.good 0) }
    (fun _ => rfl) (by rfl) (by rfl)
  exact ⟨h.1, h.2.2⟩

/-! ### Claim C3 — the session-age guard -/

/-- Claim C3.  With a persisted session whose timestamp parses and whose
age is at most 50 minutes (3000 seconds), `ensure_valid_session` returns
True leaving the state untouched — in particular without invoking
`refresh_session` and without any store write; with an age above 50
minutes, or with a missing or unparseable timestamp, it invokes
`refresh_session` (which happens before `run_scraper_for_account` issues
any search, as the search runs only after the guard returns). -/
theorem claim_C3_session_guard (w : World) (acct : Account)
    (sd : SessionDetails) (hsd : acct.session_details = some sd) :
    (∀ t, sd.session_created_at = some (.good t) → w.now - t ≤ 3000 →
      ensure_valid_session w acct (initSt acct) =
        (.ok true, { initSt acct with
                       tokens := sd.tokens
                       session_created_at := some (.good t) }) ∧
      ((ensure_valid_session w acct (initSt acct)).2).refreshCalls = 0) ∧
    (∀ t, sd.session_created_at = some (.good t) → w.now - t > 3000 →
      1 ≤ ((ensure_valid_session w acct (initSt acct)).2).refreshCalls) ∧
    ((sd.session_created_at = none ∨ sd.session_created_at = some .bad) →
      1 ≤ ((ensure_valid_session w acct (initSt acct)).2).refreshCalls) := by
  refine ⟨?_, ?_, ?_⟩
  · intro t hts hfresh
    have hE := ensure_fresh w acct sd t (initSt acct) hsd hts hfresh
    exact ⟨hE, by rw [hE]; rfl⟩
  · intro t hts hstale
    exact ensure_refreshCalls_stale w acct sd t (initSt acct) hsd hts hstale
  · intro hts
    rw [ensure_refreshCalls_nots w acct sd (initSt acct) hsd hts]
    exact Nat.le.refl

/-- Claim C3, witness: the guard applied to a fresh session (clock 100,
issued at 0) and a stale one (clock 4000). -/
theorem claim_C3_witness :
    ((ensure_valid_session wBase acctScenario (initSt acctScenario)).2).refreshCalls = 0 ∧
    1 ≤ ((ensure_valid_session wStale acctScenario (initSt acctScenario)).2).refreshCalls := by
  have h1 := (claim_C3_session_guard wBase acctScenario _ rfl).1 0 rfl (by decide)
  have h2 := (claim_C3_session_guard wStale acctScenario _ rfl).2.1 0 rfl (by decide)
  exact ⟨h1.2, h2⟩

/-! ### Claim C10 — a fresh session without an access token -/

/-- Claim C10.  A fresh session is accepted without any token check; with
no usable `oauth.access.token` the search then returns the empty list
without consulting the search environment, and the cycle ends as success
with zero offers, its only effect the `last_updated_at` stamp: no refresh,
no contact call, exactly one store write, and a row unchanged except for
`last_updated_at`. -/
theorem claim_C10_fresh_unauthenticated (w : World) (acct : Account)
    (sd : SessionDetails) (t : Nat)
    (hsd : acct.session_details = some sd)
    (hts : sd.session_created_at = some (.good t))
    (hfresh : w.now - t ≤ 3000)
    (htok : tokenUsable sd.tokens = false)
    (hdb : w.dbOk 0 = true) :
    (run_scraper_for_account w acct).1 = .ok (true, 0) ∧
    ((run_scraper_for_account w acct).2).refreshCalls = 0 ∧
    ((run_scraper_for_account w acct).2).contactCalls = [] ∧
    ((run_scraper_for_account w acct).2).writesDone = [.wLastUpd w.now] ∧
    ((run_scraper_for_account w acct).2).row =
      { acct with last_updated_at := some w.now } := by
  have hE := ensure_fresh w acct sd t (initSt acct) hsd hts hfresh
  have hrun : run_scraper_for_account w acct =
      runAfterSession w acct (getConfig acct)
        { initSt acct with
            tokens := sd.tokens
            session_created_at := some (.good t) } := by
    simp [run_scraper_for_account, hE]
  rw [hrun]
  have hsearch : search_listings sd.tokens w.searchEnv w.now = [] := by
    simp [search_listings, htok]
  refine ⟨?_, ?_, ?_, ?_, ?_⟩ <;>
    simp [runAfterSession, hsearch, dbUpdate, hdb, applyWrite, initSt]

/-- Claim C10, witness: the fresh-but-unauthenticated account ends as
success with zero offers and only the timestamp write. -/
theorem claim_C10_witness :
    tokenUsable emptyTokens = false ∧
    (run_scraper_for_account wBase acctNoToken).1 = .ok (true, 0) ∧
    ((run_scraper_for_account wBase acctNoToken).2).writesDone =
      [.wLastUpd 100] := by
  have h := claim_C10_fresh_unauthenticated wBase acctNoToken
    { tokens := emptyTokens, session_created_at := some (.good 90) } 90
    rfl rfl (by decide) rfl rfl
  exact ⟨rfl, h.1, h.2.2.2.1⟩

/-! ### Claim C4 — first-run bootstrap -/

/-- Claim C4.  When the previous snapshot has no offers and the fetch
returns a non-empty listing sequence, the cycle performs no contact
dispatch regardless of the stored contacted-id history, saves all fetched
listings (truncated to 50) as the new offers, and returns success with the
fetched count. -/
theorem claim_C4_first_run (w : World) (acct : Account)
    (hdb : ∀ k, w.dbOk k = true)
    (hfirst : offersOf acct = [])
    (hE : (ensure_valid_session w acct (initSt acct)).1 = .ok true)
    (hne : fetchedOf w acct ≠ []) :
    (run_scraper_for_account w acct).1 = .ok (true, (fetchedOf w acct).length) ∧
    ((run_scraper_for_account w acct).2).contactCalls = [] ∧
    ((run_scraper_for_account w acct).2).row.listing_data =
      some { last_latest := some w.now
           , offers := (fetchedOf w acct).take 50
           , contacted_ids := historyOf acct } := by
  have hcc : ((ensure_valid_session w acct (initSt acct)).2).contactCalls = [] := by
    rw [ensure_contactCalls]
    rfl
  simp only [fetchedOf] at hne ⊢
  rw [run_of_ensure_true w acct hE]
  simp only [runAfterSession]
  have hcond : (search_listings ((ensure_valid_session w acct (initSt acct)).2).tokens
      w.searchEnv w.now).isEmpty = false := List.isEmpty_eq_false.mpr hne
  simp only [matchListing_offers, matchListing_contacted, hfirst, List.map_nil,
    List.contains_nil, Bool.not_false, List.filter_true, hcond,
    Bool.false_eq_true, if_false, List.append_nil, dbUpdate_fst, hdb,
    Bool.not_true, List.isEmpty_nil, if_true]
  refine ⟨?_, ?_, ?_⟩
  · first
    | rfl
    | trivial
  · rw [dbUpdate_contactCalls]
    exact hcc
  · exact dbUpdate_row_listing_lastupd_ok w _ _ _ (hdb _)

/-- Claim C4, witness: a first-run account with non-empty contacted history
ends with no contact calls and all fetched listings saved. -/
theorem claim_C4_witness :
    offersOf acctFirstRun = [] ∧ historyOf acctFirstRun = [3, 1] ∧
    (run_scraper_for_account wBase acctFirstRun).1 = .ok (true, 2) ∧
    ((run_scraper_for_account wBase acctFirstRun).2).contactCalls = [] := by
  have h := claim_C4_first_run wBase acctFirstRun (fun _ => rfl) rfl rfl (by decide)
  exact ⟨rfl, rfl, h.1, h.2.1⟩

/-! ### Claim C5 — the diff and the merge -/

/-- Claim C5.  The new-offer sequence is exactly the fetched listings whose
id is not among the previous offers' ids, in fetched order, and the
persisted merged offers are that sequence concatenated before the previous
offers, truncated to the first 50 entries. -/
theorem claim_C5_diff_merge (w : World) (acct : Account)
    (hdb : ∀ k, w.dbOk k = true)
    (hE : (ensure_valid_session w acct (initSt acct)).1 = .ok true)
    (hne : fetchedOf w acct ≠ [])
    (hnew : (fetchedOf w acct).filter
        (fun l => !(((offersOf acct).map (fun o => o.id)).contains l.id)) ≠ []) :
    (run_scraper_for_account w acct).1 = .ok (true,
      ((fetchedOf w acct).filter
        (fun l => !(((offersOf acct).map (fun o => o.id)).contains l.id))).length) ∧
    ∃ ld, ((run_scraper_for_account w acct).2).row.listing_data = some ld ∧
      ld.offers = (((fetchedOf w acct).filter
        (fun l => !(((offersOf acct).map (fun o => o.id)).contains l.id))) ++
        offersOf acct).take 50 := by
  simp only [fetchedOf] at hne hnew ⊢
  rw [run_of_ensure_true w acct hE]
  simp only [runAfterSession]
  have hcond : (search_listings ((ensure_valid_session w acct (initSt acct)).2).tokens
      w.searchEnv w.now).isEmpty = false := List.isEmpty_eq_false.mpr hne
  simp only [matchListing_offers, matchListing_contacted, hcond,
    Bool.false_eq_true, if_false]
  have hcond2 : ((search_listings ((ensure_valid_session w acct (initSt acct)).2).tokens
      w.searchEnv w.now).filter
        (fun l => !(((offersOf acct).map (fun o => o.id)).contains l.id))).isEmpty =
      false := List.isEmpty_eq_false.mpr hnew
  simp only [hcond2, Bool.false_eq_true, if_false, dbUpdate_fst, hdb,
    Bool.not_true]
  split
  · refine ⟨rfl, _, dbUpdate_row_listing_lastupd_ok w _ _ _ (hdb _), rfl⟩
  · split
    · refine ⟨rfl, _, dbUpdate_row_listing_lastupd_ok w _ _ _ (hdb _), rfl⟩
    · split
      · refine ⟨rfl, _, dbUpdate_row_listing_lastupd_ok w _ _ _ (hdb _), rfl⟩
      · split
        · refine ⟨rfl, _, dbUpdate_row_listing_lastupd_ok w _ _ _ (hdb _), rfl⟩
        · constructor
          · exact runContactTail_fst w _ _ _ _ _
          · obtain ⟨ld, hld, hoff⟩ := runContactTail_row_offers w _ _ _ _ _
              (dbUpdate_row_listing_lastupd_ok w _ _ _ (hdb _))
            exact ⟨ld, hld, by rw [hoff]⟩

/-- Claim C5, witness: the spec scenario.  Previous offers have ids 1 and
2, the fetch returns ids 3 and 1; the new-offer set is the fetched listing
with id 3, and the merged offers are it followed by the two previous offer
objects. -/
theorem claim_C5_witness :
    (run_scraper_for_account wBase acctScenario).1 = .ok (true, 1) ∧
    ∃ ld, ((run_scraper_for_account wBase acctScenario).2).row.listing_data =
        some ld ∧
      ld.offers = [⟨3, exposeUrl 3, unknownTitle, 100⟩, ⟨1, [], [], 0⟩,
        ⟨2, [], [], 0⟩] := by
  have h := claim_C5_diff_merge wBase acctScenario (fun _ => rfl) rfl
    (by decide) (by decide)
  refine ⟨h.1, ?_⟩
  obtain ⟨ld, hld, hoff⟩ := h.2
  exact ⟨ld, hld, by rw [hoff]; rfl⟩

/-! ### Claim C1 — the duplicate-contact guard -/

/-- Claim C1.  An identifier present anywhere in the stored contacted-id
history is never passed to `contact_listing` during a cycle, is never
appended to `newly_contacted_ids` by the dispatch loop, and every offer
whose id is in the history is counted as skipped. -/
theorem claim_C1_dedup_guard (w : World) (acct : Account) (x : Nat)
    (hx : x ∈ historyOf acct) :
    x ∉ ((run_scraper_for_account w acct).2).contactCalls ∧
    (∀ offers s, x ∉
      ((dispatchLoop w (historyOf acct) offers emptyDispatchAcc s).1).newly_contacted_ids) ∧
    (∀ offers s,
      ((dispatchLoop w (historyOf acct) offers emptyDispatchAcc s).1).skipped =
        (offers.filter (fun o => (historyOf acct).contains o.id)).length) := by
  have hcx : (historyOf acct).contains x = true := by simpa using hx
  refine ⟨?_, ?_, ?_⟩
  · intro hmem
    have h := run_contactCalls_mem w acct x hmem
    rw [hcx] at h
    cases h
  · intro offers s hmem
    rcases dispatchLoop_newly_mem w (historyOf acct) x offers emptyDispatchAcc s hmem
      with h | h
    · exact absurd h (List.not_mem_nil x)
    · rw [hcx] at h
      cases h
  · intro offers s
    rw [dispatchLoop_skipped]
    simp [emptyDispatchAcc]

/-- Claim C1, witness: an id held 1001 times in the history is never
contacted even when it reappears as a new offer. -/
theorem claim_C1_witness :
    9 ∈ historyOf acctOversized ∧
    9 ∉ ((run_scraper_for_account wNine acctOversized).2).contactCalls := by
  have hx : 9 ∈ historyOf acctOversized := by decide
  exact ⟨hx, (claim_C1_dedup_guard wNine acctOversized 9 hx).1⟩

/-! ### Claim C9 — no exception escapes -/

/-- Claim C9, counterexample.  The claim states that
`run_scraper_for_account` never propagates a raised exception for any
behaviour of the store.  The `last_updated_at` update after an empty fetch
(source line 570) is outside any `try`: with a fresh session that lacks an
access token (so the fetch returns the empty list) and a store whose update
raises, the session guard still succeeds but the cycle propagates the
exception. -/
theorem claim_C9_counterexample :
    (ensure_valid_session wDbFail acctNoToken (initSt acctNoToken)).1 = .ok true ∧
    (run_scraper_for_account wDbFail acctNoToken).1 = .error () := by
  exact ⟨rfl, rfl⟩

/-- Claim C9, amended.  Provided every store update succeeds, the cycle
never propagates an exception: it always returns a flag-count pair.  (When
a store update raises at one of the call sites outside a `try` — the
empty-fetch and no-new-offers `last_updated_at` stamps, or the
session-persist and second disable update inside the session guard — the
exception propagates to the caller, as the counterexample shows.) -/
theorem claim_C9_amended_no_raise (w : World) (acct : Account)
    (hdb : ∀ k, w.dbOk k = true) :
    ∃ p, (run_scraper_for_account w acct).1 = .ok p := by
  obtain ⟨b, hb⟩ := ensure_storeOk w acct (initSt acct) hdb
  rcases hp : ensure_valid_session w acct (initSt acct) with ⟨r, s⟩
  rw [hp] at hb
  have hr : r = .ok b := hb
  subst hr
  cases b with
  | false =>
    rw [run_of_ensure_false w acct s hp]
    exact ⟨(false, 0), rfl⟩
  | true =>
    obtain ⟨n, hn⟩ := run_true_fst w acct s hdb hp
    exact ⟨(true, n), hn⟩

/-- Claim C9, witness: the amended theorem at a concrete benign world. -/
theorem claim_C9_witness :
    ∃ p, (run_scraper_for_account wBase acctScenario).1 = .ok p :=
  claim_C9_amended_no_raise wBase acctScenario (fun _ => rfl)

/-! ### Claim C8 — the length bounds -/

/-- Claim C8, counterexample.  The claim states that after every dispatch
cycle the persisted `contacted_ids` has length at most 1000, even for an
input snapshot already exceeding the bound.  A dispatch cycle whose only
new offer is skipped as a duplicate writes no contacted-id list at all, so
a pre-existing 1001-entry history survives the cycle: the cycle below
completes its dispatch (result `(True, 1)`) yet leaves 1001 persisted
contacted ids. -/
theorem claim_C8_counterexample :
    historyOf acctOversized = List.replicate 1001 9 ∧
    (run_scraper_for_account wNine acctOversized).1 = .ok (true, 1) ∧
    (((run_scraper_for_account wNine acctOversized).2).row.listing_data.getD
      emptyListingData).contacted_ids.length = 1001 := by
  refine ⟨rfl, rfl, ?_⟩
  rfl

/-- Claim C8, amended.  Every offers sequence the cycle writes has length
at most 50, and every contacted-ids sequence the dispatch step writes has
length at most 1000; a cycle that writes nothing to a field leaves a
pre-existing over-long sequence in place (see the counterexample), and the
snapshot write carries the previous `contacted_ids` over unchanged. -/
theorem claim_C8_amended_bounds (w : World) (acct : Account) (q : DbWrite)
    (hq : q ∈ ((run_scraper_for_account w acct).2).writesDone) :
    (∀ d t, q = .wListingLastUpd d t → d.offers.length ≤ 50) ∧
    (∀ d, q = .wListing d → d.offers.length ≤ 50 ∧ d.contacted_ids.length ≤ 1000) := by
  have hshape : (∃ sd, q = .wSession sd) ∨
      q = .wConfig (disableConfig (getConfig acct)) ∨
      postWrite (getConfig acct) q := by
    rcases hp : ensure_valid_session w acct (initSt acct) with ⟨r, s⟩
    match r with
    | .error e =>
      rw [run_of_ensure_error w acct e s hp] at hq
      have h := ensure_writes_mem w acct (initSt acct) q (by rw [hp]; exact hq)
      rcases h with h | h | h
      · exact absurd h (List.not_mem_nil q)
      · exact Or.inl h
      · exact Or.inr (Or.inl h)
    | .ok false =>
      rw [run_of_ensure_false w acct s hp] at hq
      have h := ensure_writes_mem w acct (initSt acct) q (by rw [hp]; exact hq)
      rcases h with h | h | h
      · exact absurd h (List.not_mem_nil q)
      · exact Or.inl h
      · exact Or.inr (Or.inl h)
    | .ok true =>
      obtain ⟨ds, hds, hqs⟩ := run_true_writes w acct s hp
      rw [hds] at hq
      rcases List.mem_append.mp hq with h | h
      · have h2 := ensure_writes_mem w acct (initSt acct) q (by rw [hp]; exact h)
        rcases h2 with h2 | h2 | h2
        · exact absurd h2 (List.not_mem_nil q)
        · exact Or.inl h2
        · exact Or.inr (Or.inl h2)
      · exact Or.inr (Or.inr (hqs q h))
  constructor
  · intro d t hqe
    subst hqe
    rcases hshape with ⟨sd', h⟩ | h | h
    · simp at h
    · simp at h
    · rcases h with ⟨t', h⟩ | ⟨d', t', h, hb⟩ | ⟨d', h, _, _⟩ | ⟨c, h, _⟩
      · simp at h
      · injection h with h1 h2
        subst h1
        exact hb
      · simp at h
      · simp at h
  · intro d hqe
    subst hqe
    rcases hshape with ⟨sd', h⟩ | h | h
    · simp at h
    · simp at h
    · rcases h with ⟨t', h⟩ | ⟨d', t', h, _⟩ | ⟨d', h, hb1, hb2⟩ | ⟨c, h, _⟩
      · simp at h
      · simp at h
      · injection h with h1
        subst h1
        exact ⟨hb1, hb2⟩
      · simp at h

/-- Claim C8, witness: the snapshot write of the scenario cycle, whose
offers list (three entries) satisfies the bound. -/
theorem claim_C8_witness :
    (DbWrite.wListingLastUpd
      { last_latest := some 100
      , offers := [⟨3, exposeUrl 3, unknownTitle, 100⟩, ⟨1, [], [], 0⟩, ⟨2, [], [], 0⟩]
      , contacted_ids := [9] } 100) ∈
      ((run_scraper_for_account wBase acctScenario).2).writesDone ∧
    ([⟨3, exposeUrl 3, unknownTitle, 100⟩, ⟨1, [], [], 0⟩,
      ⟨2, [], [], 0⟩] : List Listing).length ≤ 50 := by
  have hq : (DbWrite.wListingLastUpd
      { last_latest := some 100
      , offers := [⟨3, exposeUrl 3, unknownTitle, 100⟩, ⟨1, [], [], 0⟩, ⟨2, [], [], 0⟩]
      , contacted_ids := [9] } 100) ∈
      ((run_scraper_for_account wBase acctScenario).2).writesDone := by decide
  exact ⟨hq, (claim_C8_amended_bounds wBase acctScenario _ hq).1 _ _ rfl⟩

/-! ### Claim C6 — auto-disable exactly once -/

theorem postWrite_not_disable (config : Config) (q : DbWrite)
    (hen : config.scrape_enabled ≠ some false) (hq : postWrite config q) :
    isDisable q = false := by
  rcases hq with ⟨t, rfl⟩ | ⟨d, t, rfl, _⟩ | ⟨d, rfl, _, _⟩ | ⟨c, rfl, hsc⟩
  · rfl
  · rfl
  · rfl
  · simp only [isDisable]
    rw [hsc]
    exact beq_eq_false_iff_ne.mpr hen

/-- The three result shapes of a cycle, packaged as the C6 conclusion. -/
theorem c6_shape_success (L : List DbWrite) (r : Except Unit (Bool × Nat))
    (rc n : Nat) (h0 : L.filter isDisable = []) (hn : r = .ok (true, n)) :
    (L.filter isDisable).length ≤ 1 ∧
    ((L.filter isDisable).length = 1 ↔ (1 ≤ rc ∧ r = .ok (false, 0))) := by
  rw [h0]
  refine ⟨by simp, ?_, ?_⟩
  · intro h
    simp at h
  · rintro ⟨_, hco⟩
    rw [hn] at hco
    simp at hco

theorem c6_shape_norefresh (L : List DbWrite) (r : Except Unit (Bool × Nat))
    (rc : Nat) (h0 : L.filter isDisable = []) (hrc : rc = 0) :
    (L.filter isDisable).length ≤ 1 ∧
    ((L.filter isDisable).length = 1 ↔ (1 ≤ rc ∧ r = .ok (false, 0))) := by
  rw [h0, hrc]
  refine ⟨by simp, ?_, ?_⟩
  · intro h
    simp at h
  · rintro ⟨h1, _⟩
    exact absurd h1 (by simp)

theorem c6_shape_disable (L : List DbWrite) (r : Except Unit (Bool × Nat))
    (rc : Nat) (c : Config) (h1 : L.filter isDisable = [.wConfig c])
    (hrc : 1 ≤ rc) (hr : r = .ok (false, 0)) :
    (L.filter isDisable).length ≤ 1 ∧
    ((L.filter isDisable).length = 1 ↔ (1 ≤ rc ∧ r = .ok (false, 0))) := by
  rw [h1]
  exact ⟨by simp, iff_of_true rfl ⟨hrc, hr⟩⟩

/-- Under an always-succeeding store, a usable-session verdict leads to a
cycle with no disable write and a success result. -/
theorem c6_run_true (w : World) (acct : Account) (sE : St)
    (hdb : ∀ k, w.dbOk k = true)
    (hen : (getConfig acct).scrape_enabled ≠ some false)
    (hpair : ensure_valid_session w acct (initSt acct) = (.ok true, sE))
    (hfe : sE.writesDone.filter isDisable = []) :
    (((run_scraper_for_account w acct).2).writesDone.filter isDisable).length ≤ 1 ∧
    ((((run_scraper_for_account w acct).2).writesDone.filter isDisable).length = 1 ↔
      (1 ≤ ((run_scraper_for_account w acct).2).refreshCalls ∧
       (run_scraper_for_account w acct).1 = .ok (false, 0))) := by
  obtain ⟨n, hn⟩ := run_true_fst w acct sE hdb hpair
  obtain ⟨ds, hds, hqs⟩ := run_true_writes w acct sE hpair
  have hds0 : ds.filter isDisable = [] := by
    rw [List.filter_eq_nil_iff]
    intro q hq
    simp [postWrite_not_disable (getConfig acct) q hen (hqs q hq)]
  have h0 : ((run_scraper_for_account w acct).2).writesDone.filter isDisable = [] := by
    rw [hds, List.filter_append, hfe, hds0]
    rfl
  exact c6_shape_success _ _ _ n h0 hn

/-- Claim C6.  With an always-succeeding store and an account that is not
already disabled, the cycle persists `scrape_enabled = false` at most once,
and it does so exactly once precisely when `refresh_session` was invoked
and the cycle ended as `(False, 0)` — the refresh-failure outcome; no other
outcome of the cycle issues a disable write. -/
theorem claim_C6_auto_disable (w : World) (acct : Account)
    (hdb : ∀ k, w.dbOk k = true)
    (hen : (getConfig acct).scrape_enabled ≠ some false) :
    (((run_scraper_for_account w acct).2).writesDone.filter isDisable).length ≤ 1 ∧
    ((((run_scraper_for_account w acct).2).writesDone.filter isDisable).length = 1 ↔
      (1 ≤ ((run_scraper_for_account w acct).2).refreshCalls ∧
       (run_scraper_for_account w acct).1 = .ok (false, 0))) := by
  rcases hsd : acct.session_details with _ | sd
  · -- no session: terminal failure without refresh and without writes
    have hE := ensure_no_session w acct (initSt acct) hsd
    rw [run_of_ensure_false w acct _ hE]
    exact c6_shape_norefresh _ _ _ rfl rfl
  · rcases hts : sd.session_created_at with _ | ts
    · -- missing timestamp: fallback refresh
      have hEN := ensure_nots w acct sd (initSt acct) hsd (Or.inl hts)
      cases hr : (refresh_session w
          { initSt acct with
              tokens := sd.tokens
              session_created_at := sd.session_created_at }).1
      · -- refresh failed: one disable write, (False, 0)
        have hfst := ensureFallback_storeOk_fst w acct
          { initSt acct with
              tokens := sd.tokens
              session_created_at := sd.session_created_at } hdb
        rw [hr] at hfst
        have hpair : ensure_valid_session w acct (initSt acct) =
            (.ok false, (ensureFallback w acct
              { initSt acct with
                  tokens := sd.tokens
                  session_created_at := sd.session_created_at }).2) := by
          rw [hEN]
          exact Prod.ext hfst rfl
        rw [run_of_ensure_false w acct _ hpair]
        refine c6_shape_disable _ _ _ (disableConfig (getConfig acct)) ?_ ?_ rfl
        · rw [ensureFallback_storeOk_writes_fail w acct _ hdb hr]
          simp [isDisable, disableConfig, initSt]
        · rw [ensureFallback_refreshCalls]
          exact Nat.le.refl
      · -- refresh succeeded: session write only
        have hfst := ensureFallback_storeOk_fst w acct
          { initSt acct with
              tokens := sd.tokens
              session_created_at := sd.session_created_at } hdb
        rw [hr] at hfst
        have hpair : ensure_valid_session w acct (initSt acct) =
            (.ok true, (ensureFallback w acct
              { initSt acct with
                  tokens := sd.tokens
                  session_created_at := sd.session_created_at }).2) := by
          rw [hEN]
          exact Prod.ext hfst rfl
        refine c6_run_true w acct _ hdb hen hpair ?_
        rw [ensureFallback_storeOk_writes_ok w acct _ hdb hr]
        simp [isDisable, initSt]
    · cases ts with
      | good t =>
        by_cases hage : w.now - t > 3000
        · -- stale session
          cases hr : (refresh_session w
              { initSt acct with
                  tokens := sd.tokens
                  session_created_at := some (.good t) }).1
          · -- refresh failed
            have hpair := ensure_stale_false w acct sd t (initSt acct) hdb hsd hts
              hage hr
            rw [run_of_ensure_false w acct _ hpair]
            refine c6_shape_disable _ _ _ (disableConfig (getConfig acct)) ?_ ?_ rfl
            · rw [dbUpdate_writesDone_ok _ _ _ (hdb _), refresh_session_writesDone]
              simp [isDisable, disableConfig, initSt]
            · rw [dbUpdate_refreshCalls, refresh_session_refreshCalls]
              exact Nat.le.refl
          · -- refresh succeeded
            have hpair := ensure_stale_true w acct sd t (initSt acct) hdb hsd hts
              hage hr
            refine c6_run_true w acct _ hdb hen hpair ?_
            rw [dbUpdate_writesDone_ok _ _ _ (hdb _), refresh_session_writesDone]
            simp [isDisable, initSt]
        · -- fresh session: no refresh, no write
          have hpair := ensure_fresh w acct sd t (initSt acct) hsd hts (by omega)
          exact c6_run_true w acct _ hdb hen hpair rfl
      | bad =>
        -- unparseable timestamp: fallback refresh
        have hEN := ensure_nots w acct sd (initSt acct) hsd (Or.inr hts)
        cases hr : (refresh_session w
            { initSt acct with
                tokens := sd.tokens
                session_created_at := sd.session_created_at }).1
        · have hfst := ensureFallback_storeOk_fst w acct
            { initSt acct with
                tokens := sd.tokens
                session_created_at := sd.session_created_at } hdb
          rw [hr] at hfst
          have hpair : ensure_valid_session w acct (initSt acct) =
              (.ok false, (ensureFallback w acct
                { initSt acct with
                    tokens := sd.tokens
                    session_created_at := sd.session_created_at }).2) := by
            rw [hEN]
            exact Prod.ext hfst rfl
          rw [run_of_ensure_false w acct _ hpair]
          refine c6_shape_disable _ _ _ (disableConfig (getConfig acct)) ?_ ?_ rfl
          · rw [ensureFallback_storeOk_writes_fail w acct _ hdb hr]
            simp [isDisable, disableConfig, initSt]
          · rw [ensureFallback_refreshCalls]
            exact Nat.le.refl
        · have hfst := ensureFallback_storeOk_fst w acct
            { initSt acct with
                tokens := sd.tokens
                session_created_at := sd.session_created_at } hdb
          rw [hr] at hfst
          have hpair : ensure_valid_session w acct (initSt acct) =
              (.ok true, (ensureFallback w acct
                { initSt acct with
                    tokens := sd.tokens
                    session_created_at := sd.session_created_at }).2) := by
            rw [hEN]
            exact Prod.ext hfst rfl
          refine c6_run_true w acct _ hdb hen hpair ?_
          rw [ensureFallback_storeOk_writes_ok w acct _ hdb hr]
          simp [isDisable, initSt]

/-- Claim C6, witness: a stale session whose refresh hard-fails on all 20
attempts ends as `(False, 0)` with exactly one disable write. -/
theorem claim_C6_witness :
    (getConfig acctScenario).scrape_enabled = some true ∧
    (((run_scraper_for_account wStale acctScenario).2).writesDone.filter
      isDisable).length = 1 ∧
    (run_scraper_for_account wStale acctScenario).1 = .ok (false, 0) := by
  have h := claim_C6_auto_disable wStale acctScenario (fun _ => rfl) (by decide)
  refine ⟨rfl, ?_, by rfl⟩
  exact h.2.mpr ⟨by decide, by rfl⟩

end Immowelt
